import Mathlib

/-!
# Snapshot download handler (`main.go`)

A shallow embedding of the HTTP handler `download` and of the helpers it calls
(`_fetch_passphrase`, `_latest_snapshot`, `readerFile`, `handleError`), followed by
theorems about them.

Conventions of the embedding.

* Go strings are `String`; byte streams are `List UInt8`.
* A Go `error` is the text of `err.Error()`; `Option String` is `nil` or an error.
* Everything outside the handler (Vault, Elasticsearch, `net/url`, MinIO, the operating
  system, the `gpg` child) is an oracle: the record `Oracle` holds what each call returns.
* Effects are explicit: the response writer, standard error and a log of the operations
  done on collaborators and OS resources are threaded through as a `World`.
* The handler starts three goroutines. The model runs each goroutine body as one block:
  the passphrase feeder where it is launched; the two relay loops (input loop first)
  while `cmd.Run` waits for the child or, when the child cannot be started, after
  `download` has reported that and returned. The `go` statements themselves are logged
  where the source has them. A panic in a relay goroutine ends the server, so nothing is
  logged after it.
-/

namespace SnapshotDownload

/-! ## Byte streams -/

/-- The bytes of a Go string. -/
def bytes (s : String) : List UInt8 := s.toUTF8.data.toList

/-- Text of `io.EOF`. -/
def EOF : String := "EOF"

/-- Text of `io.ErrShortWrite`. -/
def ErrShortWrite : String := "short write"

/-- An `io.Reader` over a finite stream: the bytes it still delivers, and how the stream
ends after them (`none`: end of stream, `some c`: a read error with text `c`). -/
structure Reader where
  data : List UInt8
  fail : Option String

/-- Go's `strings.NewReader`. -/
def NewReader (s : String) : Reader := { data := bytes s, fail := none }

/-- An `io.Writer`: `Write` returns the new state, the number of bytes taken and the
error. -/
class Writer (σ : Type) where
  Write : σ → List UInt8 → σ × Nat × Option String

/-- The write end of a pipe or connection: what it has taken so far, how many more bytes
it takes before a write fails (`none`: it takes everything), and the text of that
failure. -/
structure Pipe where
  written : List UInt8
  room : Option Nat
  cause : String

/-- A write to a `Pipe`: all bytes when there is room, else the bytes that fit and the
error. -/
def Pipe.Write (p : Pipe) (bs : List UInt8) : Pipe × Nat × Option String :=
  match p.room with
  | none => ({ p with written := p.written ++ bs }, bs.length, none)
  | some k =>
    if bs.length ≤ k then
      ({ p with written := p.written ++ bs, room := some (k - bs.length) }, bs.length, none)
    else
      ({ p with written := p.written ++ bs.take k, room := some 0 }, k, some p.cause)

instance : Writer Pipe := ⟨Pipe.Write⟩

/-- Go's `http.ResponseWriter`: the status line once it has been sent, and the connection
the body goes to. -/
structure ResponseWriter where
  status : Option Nat
  conn : Pipe

/-- The body bytes sent so far. -/
def ResponseWriter.body (w : ResponseWriter) : List UInt8 := w.conn.written

/-- Go's `WriteHeader`: the first call fixes the status, later calls are ignored. -/
def ResponseWriter.WriteHeader (w : ResponseWriter) (code : Nat) : ResponseWriter :=
  match w.status with
  | some _ => w
  | none => { w with status := some code }

/-- Go's `ResponseWriter.Write`: sends status 200 first when no status has been sent. -/
def ResponseWriter.Write (w : ResponseWriter) (bs : List UInt8) :
    ResponseWriter × Nat × Option String :=
  let w1 := w.WriteHeader 200
  let r := w1.conn.Write bs
  ({ w1 with conn := r.1 }, r.2.1, r.2.2)

instance : Writer ResponseWriter := ⟨ResponseWriter.Write⟩

/-- Go's `http.Error(w, msg, code)`: `WriteHeader(code)`, then `fmt.Fprintln(w, msg)`. -/
def httpError (w : ResponseWriter) (msg : String) (code : Nat) : ResponseWriter :=
  ((w.WriteHeader code).Write (bytes msg ++ [10])).1

/-- What one `io.CopyN` call leaves behind. -/
structure CopyResult (σ : Type) where
  dst : σ
  src : Reader
  written : Nat
  err : Option String

/-- Go's `io.CopyN(dst, src, n)`: copies up to `n` bytes; `written = n` exactly when the
error is `nil`; a source that ends before `n` bytes gives `io.EOF`. -/
def CopyN {σ : Type} [Writer σ] (dst : σ) (src : Reader) (n : Nat) : CopyResult σ :=
  let chunk := src.data.take n
  let r : σ × Nat × Option String :=
    if chunk.isEmpty then (dst, 0, none) else Writer.Write dst chunk
  let rest : Reader := { src with data := src.data.drop r.2.1 }
  if r.2.1 = n then ⟨r.1, rest, n, none⟩
  else match r.2.2 with
    | some e => ⟨r.1, rest, r.2.1, some e⟩
    | none =>
      if r.2.1 < chunk.length then ⟨r.1, rest, r.2.1, some ErrShortWrite⟩
      else ⟨r.1, rest, r.2.1, some (src.fail.getD EOF)⟩

/-! ## The command and the world -/

/-- An `*os.File` that is the read end of a pipe: the bytes a reader of it will get. -/
structure File where
  content : List UInt8
deriving DecidableEq

/-- An `*os.Process`: how many times it has been sent the kill signal. -/
structure Process where
  kills : Nat
deriving DecidableEq

/-- Go's `exec.Cmd`, the fields the handler touches. `Env` empty means that the child
gets the environment of the server. -/
structure Cmd where
  Path : String
  Args : List String
  Env : List String
  ExtraFiles : List File
  Process : Option Process
deriving DecidableEq

/-- Go's `exec.Command(name, arg...)`. -/
def Command (name : String) (arg : List String) : Cmd :=
  { Path := name, Args := name :: arg, Env := [], ExtraFiles := [], Process := none }

/-- OS resources the handler acquires. -/
inductive Resource
  | object
  | stdinPipe
  | phraseReader
  | phraseWriter
  | stdoutPipe
deriving DecidableEq

/-- Goroutines started by the handler. -/
inductive Goroutine
  | feeder
  | inputLoop
  | outputLoop
deriving DecidableEq

/-- Operations the handler performs, as they appear in the log. -/
inductive Event
  | fetchPassphrase
  | latestSnapshot
  | urlParse (snapshot_id : String)
  | minioNew
  | getObject (bucket key : String)
  | command (name : String) (arg : List String)
  | acquired (r : Resource)
  | released (r : Resource)
  | go (g : Goroutine)
  | setExtraFiles
  | start
  | wait
  | kill
  | handleError (err : String)
deriving DecidableEq

/-- Effects visible outside the handler: the HTTP response, the format strings handed to
`fmt.Fprintf(os.Stderr, ...)`, and the log of operations, oldest first. -/
structure World where
  w : ResponseWriter
  stderr : List String
  log : List Event

/-- Append one operation to the log. -/
def World.record (s : World) (e : Event) : World := { s with log := s.log ++ [e] }

/-- The source's `handleError`: `http.Error(w, err, 500)`, then the line on standard
error. -/
def handleError (s : World) (err : String) : World :=
  { w := httpError s.w err 500
    stderr := s.stderr ++ ["ERROR: " ++ err ++ "\n"]
    log := s.log ++ [Event.handleError err] }

/-! ## The relay loops -/

/-- The source's `cmd.Process.Kill()`: `none` is the nil dereference when the command has
not been started, otherwise the signal is sent and logged. -/
def Kill (s : World) (cmd : Cmd) : Option (World × Cmd) :=
  match cmd.Process with
  | none => none
  | some p => some (s.record Event.kill, { cmd with Process := some { kills := p.kills + 1 } })

/-- How a relay goroutine ends: through `break`, through the error branch (error reported,
child killed), or by the nil dereference in the error branch. -/
inductive LoopExit
  | ok
  | failed
  | crashed
deriving DecidableEq

/-- State left by the input relay goroutine; `exit = none` means that the fuel ran out. -/
structure InputLoop where
  world : World
  cmd : Cmd
  stdin : Pipe
  object : Reader
  exit : Option LoopExit

/-- The goroutine "Loop reading from object and writing to GnuPG". -/
def inputLoop : Nat → World → Cmd → Pipe → Reader → InputLoop
  | 0, s, cmd, stdin, object => ⟨s, cmd, stdin, object, none⟩
  | fuel + 1, s, cmd, stdin, object =>
    let r := CopyN stdin object 1000000
    match r.err with
    | some err =>
      let s1 := handleError s ("Transferring object from storage: " ++ err)
      match Kill s1 cmd with
      | none => ⟨s1, cmd, r.dst, r.src, some LoopExit.crashed⟩
      | some (s2, cmd2) => ⟨s2, cmd2, r.dst, r.src, some LoopExit.failed⟩
    | none =>
      if r.written ≤ 0 then ⟨s, cmd, r.dst, r.src, some LoopExit.ok⟩
      else inputLoop fuel s cmd r.dst r.src

/-- State left by the output relay goroutine; `exit = none` means that the fuel ran
out. -/
structure OutputLoop where
  world : World
  cmd : Cmd
  stdout : Reader
  exit : Option LoopExit

/-- The goroutine "Loop reading from GnuPG and writing to response". -/
def outputLoop : Nat → World → Cmd → Reader → OutputLoop
  | 0, s, cmd, stdout => ⟨s, cmd, stdout, none⟩
  | fuel + 1, s, cmd, stdout =>
    let r := CopyN s.w stdout 1000000
    let s0 : World := { s with w := r.dst }
    match r.err with
    | some err =>
      let s1 := handleError s0 ("Transferring decrypted file to response: " ++ err)
      match Kill s1 cmd with
      | none => ⟨s1, cmd, r.src, some LoopExit.crashed⟩
      | some (s2, cmd2) => ⟨s2, cmd2, r.src, some LoopExit.failed⟩
    | none =>
      if r.written ≤ 0 then ⟨s0, cmd, r.src, some LoopExit.ok⟩
      else outputLoop fuel s0 cmd r.src

/-- Fuel that lets a relay loop over `src` run to its end: every round that does not end
the loop takes 1000000 bytes from the source. -/
def fuelFor (src : Reader) : Nat := src.data.length + 1

/-! ## Decoded JSON and the two lookups -/

/-- A value decoded by `encoding/json` into `interface{}`: `nil`, `bool`, `float64` (kept
as its lexeme), `string`, `[]interface{}`, `map[string]interface{}`. -/
inductive JSON
  | null
  | bool (b : Bool)
  | number (lexeme : String)
  | string (s : String)
  | array (xs : List JSON)
  | object (m : List (String × JSON))

/-- Go's map index `m[key]` on a `map[string]interface{}`: `nil` for a missing key. -/
def index (m : List (String × JSON)) (key : String) : JSON :=
  (m.lookup key).getD JSON.null

/-- Run-time panics of the handler. -/
inductive Panic
  | typeAssertion
  | indexOutOfRange (i length : Nat)
  | nilDereference
deriving DecidableEq

/-- Result of a Go function `(T, error)` that can also panic. -/
inductive Outcome (α : Type)
  | ok (a : α)
  | error (err : String)
  | panic (p : Panic)

/-- Sequencing: the first error or panic ends the computation. -/
def Outcome.bind {α β : Type} (x : Outcome α) (f : α → Outcome β) : Outcome β :=
  match x with
  | Outcome.ok a => f a
  | Outcome.error err => Outcome.error err
  | Outcome.panic p => Outcome.panic p

instance : Monad Outcome where
  pure := Outcome.ok
  bind := Outcome.bind

/-- The type assertion `v.(map[string]interface{})`, single-value form. -/
def assertMap : JSON → Outcome (List (String × JSON))
  | JSON.object m => Outcome.ok m
  | _ => Outcome.panic Panic.typeAssertion

/-- The type assertion `v.([]interface{})`, single-value form. -/
def assertSlice : JSON → Outcome (List JSON)
  | JSON.array xs => Outcome.ok xs
  | _ => Outcome.panic Panic.typeAssertion

/-- The type assertion `v.(string)`, single-value form. -/
def assertString : JSON → Outcome String
  | JSON.string s => Outcome.ok s
  | _ => Outcome.panic Panic.typeAssertion

/-- The slice index `xs[0]`. -/
def first (xs : List JSON) : Outcome JSON :=
  match xs with
  | [] => Outcome.panic (Panic.indexOutOfRange 0 0)
  | x :: _ => Outcome.ok x

/-- What the Elasticsearch client gives `_latest_snapshot`: a failure of
`elasticsearch.NewClient`, of `es.Search`, of decoding the body, or the decoded map. -/
inductive SearchReply
  | clientError (err : String)
  | searchError (err : String)
  | decodeError (err : String)
  | decoded (mapResp : List (String × JSON))

/-- The source's `_latest_snapshot`. `Errorf` is `fmt.Errorf` applied to a format string
alone. -/
def _latest_snapshot (Errorf : String → String) (reply : SearchReply) : Outcome String :=
  match reply with
  | SearchReply.clientError err => Outcome.error err
  | SearchReply.searchError err => Outcome.error err
  | SearchReply.decodeError err => Outcome.error err
  | SearchReply.decoded mapResp =>
    match index mapResp "error" with
    | JSON.null => do
      let hits ← assertMap (index mapResp "hits")
      let list ← assertSlice (index hits "hits")
      let hit ← first list
      let doc ← assertMap hit
      let source := index doc "_source"
      let stats := index (← assertMap source) "stats"
      let dumpedfiles := index (← assertMap stats) "dumpedfiles"
      let file ← first (← assertSlice dumpedfiles)
      assertString file
    | e => do
      let error ← assertMap e
      let reason ← assertString (index error "reason")
      Outcome.error (Errorf reason)

/-- Configuration read from the environment, the entries the handler itself uses. -/
structure Config where
  passphraseSecretPath : String
  passphraseSecretKey : String

/-- What the Vault client gives `_fetch_passphrase`: a failure of `api.NewClient`, of
`Logical().Read`, a nil secret, or the secret's `Data`. -/
inductive VaultReply
  | clientError (err : String)
  | readError (err : String)
  | noSecret
  | secret (Data : List (String × JSON))

/-- The source's `_fetch_passphrase`. The result `(*string, error)` is
`Except String (Option String)`, `none` being the nil pointer. -/
def _fetch_passphrase (cfg : Config) (reply : VaultReply) : Except String (Option String) :=
  match reply with
  | VaultReply.clientError err => Except.error ("Connecting to Vault: " ++ err)
  | VaultReply.readError err => Except.error ("Reading passphrase key: " ++ err)
  | VaultReply.noSecret =>
    Except.error ("No secret found at specified path: " ++ cfg.passphraseSecretPath)
  | VaultReply.secret Data =>
    match index Data "data" with
    | JSON.object data =>
      match index data cfg.passphraseSecretKey with
      | JSON.string passphrase => Except.ok (some passphrase)
      | _ => Except.error ("No '" ++ cfg.passphraseSecretKey
          ++ "' key found at specified path (" ++ cfg.passphraseSecretPath ++ ").")
    | _ => Except.error ("No 'data' found at specified path ("
        ++ cfg.passphraseSecretPath ++ ").")

/-! ## The handler -/

/-- Go's `strings.TrimPrefix(s, pre)`. -/
def TrimPrefix (s pre : String) : String :=
  if pre.data.isPrefixOf s.data then String.mk (s.data.drop pre.data.length) else s

/-- Go's `url.URL`, the fields the handler reads. -/
structure URL where
  Scheme : String
  Host : String
  Path : String

/-- What the collaborators and the operating system answer during one request. -/
structure Oracle where
  /-- Vault: `api.NewClient` and `client.Logical().Read`. -/
  vault : VaultReply
  /-- The text of `fmt.Errorf(format)`. -/
  Errorf : String → String
  /-- Elasticsearch: `NewClient`, `Search` and the decoding of the body. -/
  search : SearchReply
  /-- The result of `url.Parse`. -/
  urlParse : String → Except String URL
  /-- The error of `minio.New`. -/
  minioNew : Option String
  /-- The result of `minioClient.GetObject(bucket, key, ...)`. -/
  getObject : String → String → Except String Reader
  /-- The result of `cmd.StdinPipe()`. -/
  stdinPipe : Except String Pipe
  /-- The error of `os.Pipe()` inside `readerFile`. -/
  osPipe : Option String
  /-- The result of `cmd.StdoutPipe()`, holding what the child will write. -/
  stdoutPipe : Except String Reader
  /-- The error of starting the child, the first half of `cmd.Run()`. -/
  start : Option String
  /-- The error of waiting for the child, the second half of `cmd.Run()`. -/
  wait : Option String

/-- The source's `readerFile`: a pipe whose read end is returned and whose write end is fed
from `r` and then closed by a goroutine. -/
def readerFile (osPipe : Option String) (s : World) (r : Reader) :
    World × Except String File :=
  match osPipe with
  | some err => (s, Except.error err)
  | none =>
    let s := (s.record (Event.acquired Resource.phraseReader)).record
      (Event.acquired Resource.phraseWriter)
    let s := (s.record (Event.go Goroutine.feeder)).record
      (Event.released Resource.phraseWriter)
    (s, Except.ok { content := r.data })

/-- The pipes made by `StdinPipe` and `StdoutPipe` are closed by `cmd.Run`: by `Start` when
it fails, else by `Wait`. -/
def closePipes (s : World) : World :=
  (s.record (Event.released Resource.stdinPipe)).record (Event.released Resource.stdoutPipe)

/-- The write end of a pipe after it has been closed: every write of at least one byte
fails with Go's `os.ErrClosed`. -/
def closedPipe (p : Pipe) : Pipe :=
  { p with room := some 0, cause := "write |1: file already closed" }

/-- The read end of a pipe after it has been closed: every read fails with Go's
`os.ErrClosed`. -/
def closedReader : Reader := { data := [], fail := some "read |0: file already closed" }

/-- What the two relay goroutines leave behind: the effects, the command, how each loop
ended (`none`: it did not run) and the panic of the goroutine that dereferenced a nil
`cmd.Process`. -/
structure Relayed where
  world : World
  cmd : Cmd
  input : Option LoopExit
  output : Option LoopExit
  crash : Option Panic

/-- The two relay goroutines of `download`, the input loop first. A panic in a goroutine
ends the server, so the output loop does not run after a panic of the input loop. -/
def relays (s : World) (cmd : Cmd) (stdin : Pipe) (object stdout : Reader) : Relayed :=
  let a := inputLoop (fuelFor object) s cmd stdin object
  match a.exit with
  | some LoopExit.crashed =>
    { world := a.world, cmd := a.cmd, input := a.exit, output := none,
      crash := some Panic.nilDereference }
  | _ =>
  let b := outputLoop (fuelFor stdout) a.world a.cmd stdout
  match b.exit with
  | some LoopExit.crashed =>
    { world := b.world, cmd := b.cmd, input := a.exit, output := b.exit,
      crash := some Panic.nilDereference }
  | _ => { world := b.world, cmd := b.cmd, input := a.exit, output := b.exit, crash := none }

/-- How one request ends: the effects; the command once it has been created; `panic`, the
panic that kept `download` from returning (`none`: it returned); `crash`, the panic of a
relay goroutine after `download` had returned; how each relay goroutine ended (`none`: it
never ran); the error returned by `cmd.Run()` (`none`: not reached, or `nil`). -/
structure Run where
  world : World
  cmd : Option Cmd
  panic : Option Panic
  crash : Option Panic := none
  input : Option LoopExit := none
  output : Option LoopExit := none
  runErr : Option String := none

/-- The source's `download`, from the line `cmd.ExtraFiles = ...` on. When `cmd.Run()`
cannot start the child it has closed both pipes and returns the error at once: `download`
reports it and returns, and the relay goroutines launched earlier are left with closed
pipes and a nil `cmd.Process` (what `http.Error` does to a response whose handler has
returned is not defined by `net/http`; the model keeps the call in the log). When the
child starts, the relay goroutines run while `cmd.Run()` waits for it. -/
def run (o : Oracle) (s : World) (cmd : Cmd) (phrasefd : File) (stdin : Pipe)
    (object stdout : Reader) : Run :=
  let cmd := { cmd with ExtraFiles := [phrasefd] }
  let s := s.record Event.setExtraFiles
  let s := s.record Event.start
  match o.start with
  | some e =>
    let s := closePipes s
    let s := handleError s ("Error running GnuPG process: " ++ e)
    let s := s.record (Event.released Resource.phraseReader)
    let r := relays s cmd (closedPipe stdin) object closedReader
    { world := r.world, cmd := some r.cmd, panic := none, crash := r.crash,
      input := r.input, output := r.output, runErr := some e }
  | none =>
    let cmd := { cmd with Process := some { kills := 0 } }
    let r := relays s cmd stdin object stdout
    match r.crash with
    | some p =>
      { world := r.world, cmd := some r.cmd, panic := some p, input := r.input,
        output := r.output }
    | none =>
      let s := closePipes (r.world.record Event.wait)
      match o.wait with
      | some e =>
        let s := handleError s ("Error running GnuPG process: " ++ e)
        { world := s.record (Event.released Resource.phraseReader), cmd := some r.cmd,
          panic := none, input := r.input, output := r.output, runErr := some e }
      | none =>
        { world := s.record (Event.released Resource.phraseReader), cmd := some r.cmd,
          panic := none, input := r.input, output := r.output }

/-- The source's `download`. -/
def download (cfg : Config) (o : Oracle) (s : World) : Run :=
  let s := s.record Event.fetchPassphrase
  match _fetch_passphrase cfg o.vault with
  | Except.error err =>
    { world := handleError s ("Fetching passphrase from Vault: " ++ err), cmd := none,
      panic := none }
  | Except.ok none =>
    { world := handleError s "Empty passphrase returned from Vault", cmd := none,
      panic := none }
  | Except.ok (some passphrase) =>
  let s := s.record Event.latestSnapshot
  match _latest_snapshot o.Errorf o.search with
  | Outcome.panic p => { world := s, cmd := none, panic := some p }
  | Outcome.error err =>
    { world := handleError s ("Fetching latest snapshot id from backups index: " ++ err),
      cmd := none, panic := none }
  | Outcome.ok snapshot_id =>
  let s := s.record (Event.urlParse snapshot_id)
  match o.urlParse snapshot_id with
  | Except.error err =>
    { world := handleError s ("Unable to parse url (" ++ snapshot_id
        ++ ") for latest snapshot id from backups index: " ++ err),
      cmd := none, panic := none }
  | Except.ok u =>
  let s := s.record Event.minioNew
  match o.minioNew with
  | some err =>
    { world := handleError s ("Unable to obtain handle on object storage: " ++ err),
      cmd := none, panic := none }
  | none =>
  let s := s.record (Event.getObject u.Host (TrimPrefix u.Path "/"))
  match o.getObject u.Host (TrimPrefix u.Path "/") with
  | Except.error err =>
    { world := handleError s ("Error with GetObject: " ++ err), cmd := none, panic := none }
  | Except.ok object =>
  let s := s.record (Event.acquired Resource.object)
  let cmd := Command "gpg" ["--batch", "--passphrase-fd", "3"]
  let s := s.record (Event.command "gpg" ["--batch", "--passphrase-fd", "3"])
  match o.stdinPipe with
  | Except.error err =>
    { world := handleError s ("GnuPG stdin: " ++ err), cmd := some cmd, panic := none }
  | Except.ok stdin =>
  let s := s.record (Event.acquired Resource.stdinPipe)
  match readerFile o.osPipe s (NewReader passphrase) with
  | (s, Except.error err) =>
    { world := handleError s ("Unable to initialise GnuPG passphrase reader: " ++ err),
      cmd := some cmd, panic := none }
  | (s, Except.ok phrasefd) =>
  match o.stdoutPipe with
  | Except.error err =>
    let s := handleError s ("GnuPG stdout: " ++ err)
    { world := s.record (Event.released Resource.phraseReader), cmd := some cmd,
      panic := none }
  | Except.ok stdout =>
  let s := s.record (Event.acquired Resource.stdoutPipe)
  let s := (s.record (Event.go Goroutine.inputLoop)).record (Event.go Goroutine.outputLoop)
  run o s cmd phrasefd stdin object stdout

/-- The state of a request that has just arrived: nothing sent, nothing logged; `conn` is
the connection to the client. -/
def fresh (conn : Pipe) : World :=
  { w := { status := none, conn := conn }, stderr := [], log := [] }

/-- Number of `handleError` calls in a log. -/
def errorCount (log : List Event) : Nat :=
  (log.filter (fun e => match e with | Event.handleError _ => true | _ => false)).length

/-- One when the relay goroutine went through its error branch, the branch that calls
`handleError`; zero otherwise. -/
def reported (e : Option LoopExit) : Nat :=
  match e with
  | some LoopExit.failed => 1
  | some LoopExit.crashed => 1
  | _ => 0

/-- Go's `os/exec`: entry `i` of `ExtraFiles` becomes file descriptor `3+i` in the
child. -/
def childFd (i : Nat) : Nat := 3 + i

/-- The operations `download` has logged, in order, when it reaches the `cmd.Run()` line,
for the snapshot reference `snapshot_id` parsed as `u`. -/
def launchLog (snapshot_id : String) (u : URL) : List Event :=
  [Event.fetchPassphrase, Event.latestSnapshot, Event.urlParse snapshot_id, Event.minioNew,
    Event.getObject u.Host (TrimPrefix u.Path "/"), Event.acquired Resource.object,
    Event.command "gpg" ["--batch", "--passphrase-fd", "3"],
    Event.acquired Resource.stdinPipe, Event.acquired Resource.phraseReader,
    Event.acquired Resource.phraseWriter, Event.go Goroutine.feeder,
    Event.released Resource.phraseWriter, Event.acquired Resource.stdoutPipe,
    Event.go Goroutine.inputLoop, Event.go Goroutine.outputLoop]

/-- The first eleven characters of a message: enough to tell the messages of `download`
apart. -/
def stem (msg : String) : List Char := msg.data.take 11

/-! ## Concrete requests -/

/-- A configuration: where the passphrase lives in Vault. -/
def cfg0 : Config := { passphraseSecretPath := "secret/backup", passphraseSecretKey := "passphrase" }

/-- A Vault secret holding `passphrase` under the key of `cfg0`. -/
def vaultSecret (passphrase : String) : VaultReply :=
  VaultReply.secret [("data", JSON.object [("passphrase", JSON.string passphrase)])]

/-- A search response with one hit whose first dumped file is `file`. -/
def searchHit (file : String) : SearchReply :=
  SearchReply.decoded
    [("hits", JSON.object [("hits", JSON.array [JSON.object [("_source",
      JSON.object [("stats", JSON.object [("dumpedfiles",
        JSON.array [JSON.string file])])])]])])]

/-- A search response that matched no document. -/
def searchEmpty : SearchReply :=
  SearchReply.decoded [("hits", JSON.object [("hits", JSON.array [])])]

/-- A connection to a client that takes every byte. -/
def client : Pipe := { written := [], room := none, cause := "broken pipe" }

/-- A request in which every collaborator answers: the passphrase is "hunter2", the latest
snapshot is `storage://bucket1/snap.enc`, the object holds three bytes, the child writes
two bytes and exits with status zero. -/
def healthy : Oracle where
  vault := vaultSecret "hunter2"
  Errorf := id
  search := searchHit "storage://bucket1/snap.enc"
  urlParse := fun _ => Except.ok { Scheme := "storage", Host := "bucket1", Path := "/snap.enc" }
  minioNew := none
  getObject := fun _ _ => Except.ok { data := [1, 2, 3], fail := none }
  stdinPipe := Except.ok { written := [], room := none, cause := "broken pipe" }
  osPipe := none
  stdoutPipe := Except.ok { data := [4, 5], fail := none }
  start := none
  wait := none

/-- The storage connection breaks after two bytes of the object; the input loop kills the
child, so the child has written nothing and `cmd.Run()` reports the signal. -/
def brokenStorage : Oracle :=
  { healthy with
    getObject := fun _ _ => Except.ok { data := [1, 2], fail := some "connection reset by peer" }
    stdoutPipe := Except.ok { data := [], fail := none }
    wait := some "signal: killed" }

/-- The index returns the reference `snap.enc`, which `url.Parse` accepts with an empty
host; MinIO then refuses the empty bucket name. -/
def bareName : Oracle :=
  { healthy with
    search := searchHit "snap.enc"
    urlParse := fun _ => Except.ok { Scheme := "", Host := "", Path := "snap.enc" }
    getObject := fun _ _ => Except.error "Bucket name cannot be empty" }

/-- Vault holds the empty string as passphrase. -/
def emptySecret : Oracle := { healthy with vault := vaultSecret "" }

/-- The metadata query matches no document. -/
def noMatch : Oracle := { healthy with search := searchEmpty }

/-- Vault cannot be reached. -/
def vaultDown : Oracle :=
  { healthy with vault := VaultReply.readError "dial tcp 10.0.0.7:8200: connect: connection refused" }

/-- The operating system has no descriptor left for the passphrase pipe. -/
def noDescriptors : Oracle := { healthy with osPipe := some "pipe: too many open files" }

/-- The `gpg` executable is missing: `cmd.Run()` cannot start the child. -/
def noGpg : Oracle :=
  { healthy with start := some "exec: gpg: executable file not found in $PATH" }

/-- A command that has been started. -/
def startedGpg : Cmd :=
  { Command "gpg" ["--batch", "--passphrase-fd", "3"] with Process := some { kills := 0 } }

/-! ## Facts about `io.CopyN` -/

/-- Without an error, `CopyN` has copied exactly `n` bytes. -/
theorem CopyN_written_of_ok {σ : Type} [Writer σ] (dst : σ) (src : Reader) (n : Nat)
    (h : (CopyN dst src n).err = none) : (CopyN dst src n).written = n := by
  unfold CopyN at h ⊢
  simp only at h ⊢
  generalize (if (List.take n src.data).isEmpty = true then (dst, 0, none)
    else Writer.Write dst (List.take n src.data)) = r at h ⊢
  by_cases hn : r.2.1 = n
  · simp [hn]
  · rw [if_neg hn] at h
    exfalso
    cases h2 : r.2.2 with
    | some e => simp [h2] at h
    | none =>
      simp only [h2] at h
      split at h <;> simp at h

/-- A pipe with unlimited room takes a whole chunk from a source that has one. -/
theorem CopyN_pipe_full (p : Pipe) (src : Reader) (n : Nat) (hroom : p.room = none)
    (hn : 0 < n) (hlen : n ≤ src.data.length) :
    CopyN p src n =
      ⟨{ p with written := p.written ++ src.data.take n },
        { src with data := src.data.drop n }, n, none⟩ := by
  have hne : (src.data.take n).isEmpty = false := by
    cases hd : src.data with
    | nil => simp [hd] at hlen; omega
    | cons a t => cases n with
      | zero => omega
      | succ m => simp
  have hw : (Writer.Write p (src.data.take n) : Pipe × Nat × Option String) =
      ({ p with written := p.written ++ src.data.take n }, n, none) := by
    show Pipe.Write p (src.data.take n) = _
    simp [Pipe.Write, hroom, hlen]
  simp [CopyN, hne, hw]

/-- A pipe with unlimited room takes what is left of a source that ends inside the chunk,
and `CopyN` reports how the source ended. -/
theorem CopyN_pipe_short (p : Pipe) (src : Reader) (n : Nat) (hroom : p.room = none)
    (hlen : src.data.length < n) :
    CopyN p src n =
      ⟨{ p with written := p.written ++ src.data }, { src with data := [] },
        src.data.length, some (src.fail.getD EOF)⟩ := by
  have htake : src.data.take n = src.data := List.take_of_length_le (Nat.le_of_lt hlen)
  have hne : src.data.length ≠ n := Nat.ne_of_lt hlen
  cases hd : src.data with
  | nil =>
    have h0 : (0 : Nat) ≠ n := by
      intro h; rw [hd] at hlen; simp at hlen; omega
    cases p
    simp [CopyN, hd, h0]
  | cons a t =>
    have hw : (Writer.Write p (a :: t) : Pipe × Nat × Option String) =
        ({ p with written := p.written ++ (a :: t) }, (a :: t).length, none) := by
      show Pipe.Write p (a :: t) = _
      simp [Pipe.Write, hroom]
    rw [hd] at htake hne
    simp only [List.length_cons] at hne
    simp [CopyN, hd, htake, hw, hne]

/-- A write to a response whose connection takes everything. -/
theorem ResponseWriter.Write_of_room (w : ResponseWriter) (bs : List UInt8)
    (hroom : w.conn.room = none) :
    w.Write bs =
      ({ status := some (w.status.getD 200)
         conn := { w.conn with written := w.conn.written ++ bs } }, bs.length, none) := by
  cases hs : w.status <;>
    simp [ResponseWriter.Write, ResponseWriter.WriteHeader, Pipe.Write, hs, hroom]

/-- The body after `http.Error` on a connection that takes everything: the message and a
line feed are appended. -/
theorem httpError_body (w : ResponseWriter) (msg : String) (code : Nat)
    (hroom : w.conn.room = none) :
    (httpError w msg code).body = w.body ++ bytes msg ++ [10] := by
  cases hs : w.status <;>
    simp [httpError, ResponseWriter.Write, ResponseWriter.WriteHeader, Pipe.Write, hs, hroom,
      ResponseWriter.body]

/-- The status after `http.Error`: the one already sent, else the given code. -/
theorem httpError_status (w : ResponseWriter) (msg : String) (code : Nat) :
    (httpError w msg code).status = some (w.status.getD code) := by
  cases hs : w.status <;>
    simp [httpError, ResponseWriter.Write, ResponseWriter.WriteHeader, hs]

/-- A response whose connection takes everything takes a whole chunk. -/
theorem CopyN_response_full (w : ResponseWriter) (src : Reader) (n : Nat)
    (hroom : w.conn.room = none) (hn : 0 < n) (hlen : n ≤ src.data.length) :
    CopyN w src n =
      ⟨{ status := some (w.status.getD 200)
         conn := { w.conn with written := w.conn.written ++ src.data.take n } },
        { src with data := src.data.drop n }, n, none⟩ := by
  have hne : (src.data.take n).isEmpty = false := by
    cases hd : src.data with
    | nil => simp [hd] at hlen; omega
    | cons a t => cases n with
      | zero => omega
      | succ m => simp
  have hw : (Writer.Write w (src.data.take n) : ResponseWriter × Nat × Option String) =
      ({ status := some (w.status.getD 200)
         conn := { w.conn with written := w.conn.written ++ src.data.take n } },
        (src.data.take n).length, none) :=
    ResponseWriter.Write_of_room w _ hroom
  simp [CopyN, hne, hw, hlen]

/-- The response after the bytes `bs` have been relayed to it over a connection that
takes everything: untouched when there was nothing to send. -/
theorem CopyN_response_short (w : ResponseWriter) (src : Reader) (n : Nat)
    (hroom : w.conn.room = none) (hlen : src.data.length < n) :
    CopyN w src n =
      ⟨if src.data = [] then w else
          { status := some (w.status.getD 200)
            conn := { w.conn with written := w.conn.written ++ src.data } },
        { src with data := [] }, src.data.length, some (src.fail.getD EOF)⟩ := by
  have htake : src.data.take n = src.data := List.take_of_length_le (Nat.le_of_lt hlen)
  have hne : src.data.length ≠ n := Nat.ne_of_lt hlen
  cases hd : src.data with
  | nil =>
    have h0 : (0 : Nat) ≠ n := by
      intro h; rw [hd] at hlen; simp at hlen; omega
    simp [CopyN, hd, h0]
  | cons a t =>
    have hw : (Writer.Write w (a :: t) : ResponseWriter × Nat × Option String) =
        ({ status := some (w.status.getD 200)
           conn := { w.conn with written := w.conn.written ++ (a :: t) } },
          (a :: t).length, none) :=
      ResponseWriter.Write_of_room w _ hroom
    rw [hd] at htake hne
    simp only [List.length_cons] at hne
    simp [CopyN, hd, htake, hw, hne]

/-! ## Facts about the relay loops -/

/-- The input loop over a finite source and a pipe that takes everything, with enough fuel:
every byte of the source reaches the pipe, then the way the source ended (`io.EOF` when it
simply ended) is reported through `handleError` and the child is killed. -/
theorem inputLoop_run (fuel : Nat) : ∀ (s : World) (cmd : Cmd) (stdin : Pipe) (object : Reader),
    stdin.room = none → object.data.length < fuel →
    inputLoop fuel s cmd stdin object =
      (match Kill (handleError s
          ("Transferring object from storage: " ++ object.fail.getD EOF)) cmd with
        | none =>
          ⟨handleError s ("Transferring object from storage: " ++ object.fail.getD EOF), cmd,
            { stdin with written := stdin.written ++ object.data },
            { object with data := [] }, some LoopExit.crashed⟩
        | some (s2, cmd2) =>
          ⟨s2, cmd2, { stdin with written := stdin.written ++ object.data },
            { object with data := [] }, some LoopExit.failed⟩) := by
  induction fuel with
  | zero => intro s cmd stdin object _ hlen; omega
  | succ k ih =>
    intro s cmd stdin object hroom hlen
    by_cases h : object.data.length < 1000000
    · rw [inputLoop]
      simp only [CopyN_pipe_short stdin object 1000000 hroom h]
    · have hfull := CopyN_pipe_full stdin object 1000000 hroom (by norm_num) (by omega)
      rw [inputLoop]
      simp only [hfull]
      have hk : (List.drop 1000000 object.data).length < k := by
        simp only [List.length_drop]; omega
      rw [if_neg (by norm_num)]
      rw [ih s cmd
        { written := stdin.written ++ List.take 1000000 object.data, room := stdin.room,
          cause := stdin.cause }
        { data := List.drop 1000000 object.data, fail := object.fail } hroom hk]
      simp [List.append_assoc, List.take_append_drop]

/-- The output loop over a finite source and a response whose connection takes everything,
with enough fuel: every byte of the source is written to the response, then the way the
source ended (`io.EOF` when it simply ended) is reported through `handleError`, which
writes to the same response, and the child is killed. -/
theorem outputLoop_run (fuel : Nat) : ∀ (s : World) (cmd : Cmd) (stdout : Reader),
    s.w.conn.room = none → stdout.data.length < fuel →
    outputLoop fuel s cmd stdout =
      (match Kill (handleError
          { s with w := if stdout.data = [] then s.w else
              { status := some (s.w.status.getD 200)
                conn := { s.w.conn with written := s.w.conn.written ++ stdout.data } } }
          ("Transferring decrypted file to response: " ++ stdout.fail.getD EOF)) cmd with
        | none =>
          ⟨handleError
            { s with w := if stdout.data = [] then s.w else
                { status := some (s.w.status.getD 200)
                  conn := { s.w.conn with written := s.w.conn.written ++ stdout.data } } }
            ("Transferring decrypted file to response: " ++ stdout.fail.getD EOF), cmd,
            { stdout with data := [] }, some LoopExit.crashed⟩
        | some (s2, cmd2) =>
          ⟨s2, cmd2, { stdout with data := [] }, some LoopExit.failed⟩) := by
  induction fuel with
  | zero => intro s cmd stdout _ hlen; omega
  | succ k ih =>
    intro s cmd stdout hroom hlen
    by_cases h : stdout.data.length < 1000000
    · rw [outputLoop]
      simp only [CopyN_response_short s.w stdout 1000000 hroom h]
    · have hfull := CopyN_response_full s.w stdout 1000000 hroom (by norm_num) (by omega)
      rw [outputLoop]
      simp only [hfull]
      have hk : (List.drop 1000000 stdout.data).length < k := by
        simp only [List.length_drop]; omega
      rw [if_neg (by norm_num)]
      have key := ih
        { w := { status := some (s.w.status.getD 200)
                 conn := { written := s.w.conn.written ++ List.take 1000000 stdout.data
                           room := s.w.conn.room, cause := s.w.conn.cause } }
          stderr := s.stderr, log := s.log }
        cmd { data := List.drop 1000000 stdout.data, fail := stdout.fail } hroom hk
      rw [key]
      have hne : stdout.data ≠ [] := by
        intro h0; rw [h0] at h; simp at h
      by_cases hd : List.drop 1000000 stdout.data = []
      · have htake : List.take 1000000 stdout.data = stdout.data := by
          have := List.take_append_drop 1000000 stdout.data
          rw [hd, List.append_nil] at this; exact this
        simp [hd, hne, htake]
      · simp [hd, hne, List.append_assoc, List.take_append_drop]

/-- A pipe never reports more bytes than it was given. -/
theorem Pipe.write_bound (p : Pipe) (bs : List UInt8) : (p.Write bs).2.1 ≤ bs.length := by
  unfold Pipe.Write
  split
  · simp
  · split
    · simp
    · simp only; omega

/-- A response never reports more bytes than it was given. -/
theorem ResponseWriter.write_count_bound (w : ResponseWriter) (bs : List UInt8) :
    (w.Write bs).2.1 ≤ bs.length := by
  unfold ResponseWriter.Write
  exact Pipe.write_bound _ _

/-- A `CopyN` without error, into a writer that never reports more than it was given,
shortens the source. -/
theorem CopyN_shortens {σ : Type} [Writer σ] (dst : σ) (src : Reader) (n : Nat)
    (hle : ∀ (d : σ) (bs : List UInt8), (Writer.Write d bs).2.1 ≤ bs.length)
    (hn : 0 < n) (h : (CopyN dst src n).err = none) :
    (CopyN dst src n).src.data.length < src.data.length := by
  have hr : (if (List.take n src.data).isEmpty = true then (dst, 0, none)
      else Writer.Write dst (List.take n src.data)).2.1 ≤ (List.take n src.data).length := by
    split
    · simp
    · exact hle _ _
  unfold CopyN at h ⊢
  simp only at h ⊢
  generalize (if (List.take n src.data).isEmpty = true then (dst, 0, none)
    else Writer.Write dst (List.take n src.data)) = r at h hr ⊢
  by_cases hn2 : r.2.1 = n
  · simp only [hn2, if_true, List.length_drop]
    simp only [List.length_take] at hr
    omega
  · rw [if_neg hn2] at h
    exfalso
    cases h2 : r.2.2 with
    | some e => simp [h2] at h
    | none =>
      simp only [h2] at h
      split at h <;> simp at h

/-- The input loop always ends in its error branch, whatever the source and the pipe do:
one `handleError` call with a "Transferring object from storage" message, then
`cmd.Process.Kill()`. -/
theorem inputLoop_total (fuel : Nat) : ∀ (s : World) (cmd : Cmd) (stdin : Pipe)
    (object : Reader), object.data.length < fuel →
    ∃ err : String,
      (cmd.Process = none →
        (inputLoop fuel s cmd stdin object).exit = some LoopExit.crashed ∧
        (inputLoop fuel s cmd stdin object).world.log =
          s.log ++ [Event.handleError ("Transferring object from storage: " ++ err)] ∧
        (inputLoop fuel s cmd stdin object).cmd = cmd) ∧
      (∀ p, cmd.Process = some p →
        (inputLoop fuel s cmd stdin object).exit = some LoopExit.failed ∧
        (inputLoop fuel s cmd stdin object).world.log =
          s.log ++ [Event.handleError ("Transferring object from storage: " ++ err),
            Event.kill] ∧
        (inputLoop fuel s cmd stdin object).cmd =
          { cmd with Process := some { kills := p.kills + 1 } }) := by
  induction fuel with
  | zero => intro s cmd stdin object hlen; omega
  | succ k ih =>
    intro s cmd stdin object hlen
    rw [inputLoop]
    cases herr : (CopyN stdin object 1000000).err with
    | some err =>
      refine ⟨err, ?_, ?_⟩
      · intro hp
        simp [Kill, hp, handleError]
      · intro p hp
        simp [Kill, hp, handleError, World.record]
    | none =>
      have hw := CopyN_written_of_ok stdin object 1000000 herr
      have hs := CopyN_shortens stdin object 1000000 Pipe.write_bound (by norm_num) herr
      simp only [hw]
      rw [if_neg (by norm_num)]
      exact ih s cmd _ _ (by omega)

/-- The output loop always ends in its error branch, whatever the source and the response
do: one `handleError` call with a "Transferring decrypted file to response" message, then
`cmd.Process.Kill()`. -/
theorem outputLoop_total (fuel : Nat) : ∀ (s : World) (cmd : Cmd) (stdout : Reader),
    stdout.data.length < fuel →
    ∃ err : String,
      (cmd.Process = none →
        (outputLoop fuel s cmd stdout).exit = some LoopExit.crashed ∧
        (outputLoop fuel s cmd stdout).world.log =
          s.log ++ [Event.handleError ("Transferring decrypted file to response: " ++ err)] ∧
        (outputLoop fuel s cmd stdout).cmd = cmd) ∧
      (∀ p, cmd.Process = some p →
        (outputLoop fuel s cmd stdout).exit = some LoopExit.failed ∧
        (outputLoop fuel s cmd stdout).world.log =
          s.log ++ [Event.handleError ("Transferring decrypted file to response: " ++ err),
            Event.kill] ∧
        (outputLoop fuel s cmd stdout).cmd =
          { cmd with Process := some { kills := p.kills + 1 } }) := by
  induction fuel with
  | zero => intro s cmd stdout hlen; omega
  | succ k ih =>
    intro s cmd stdout hlen
    rw [outputLoop]
    cases herr : (CopyN s.w stdout 1000000).err with
    | some err =>
      refine ⟨err, ?_, ?_⟩
      · intro hp
        simp [Kill, hp, handleError]
      · intro p hp
        simp [Kill, hp, handleError, World.record]
    | none =>
      have hw := CopyN_written_of_ok s.w stdout 1000000 herr
      have hs := CopyN_shortens s.w stdout 1000000 ResponseWriter.write_count_bound
        (by norm_num) herr
      simp only [hw]
      rw [if_neg (by norm_num)]
      exact ih { s with w := (CopyN s.w stdout 1000000).dst } cmd _ (by omega)

/-- With a nil `cmd.Process` the input goroutine reports its error and panics in
`cmd.Process.Kill()`; the output loop does not run. -/
theorem relays_nil (s : World) (cmd : Cmd) (stdin : Pipe) (object stdout : Reader)
    (hcmd : cmd.Process = none) :
    ∃ e1 : String,
      (relays s cmd stdin object stdout).world.log =
        s.log ++ [Event.handleError ("Transferring object from storage: " ++ e1)] ∧
      (relays s cmd stdin object stdout).cmd = cmd ∧
      (relays s cmd stdin object stdout).input = some LoopExit.crashed ∧
      (relays s cmd stdin object stdout).output = none ∧
      (relays s cmd stdin object stdout).crash = some Panic.nilDereference := by
  obtain ⟨e1, h1, -⟩ := inputLoop_total (fuelFor object) s cmd stdin object
    (by simp [fuelFor])
  obtain ⟨hx, hl, hc⟩ := h1 hcmd
  refine ⟨e1, ?_⟩
  unfold relays
  simp only [hx, hl, hc]
  simp

/-- With a started child both relay goroutines report an error and kill it. -/
theorem relays_started (s : World) (cmd : Cmd) (stdin : Pipe) (object stdout : Reader)
    (p : Process) (hcmd : cmd.Process = some p) :
    ∃ e1 e2 : String,
      (relays s cmd stdin object stdout).world.log =
        s.log ++ [Event.handleError ("Transferring object from storage: " ++ e1),
          Event.kill,
          Event.handleError ("Transferring decrypted file to response: " ++ e2),
          Event.kill] ∧
      (relays s cmd stdin object stdout).cmd =
        { cmd with Process := some { kills := p.kills + 2 } } ∧
      (relays s cmd stdin object stdout).input = some LoopExit.failed ∧
      (relays s cmd stdin object stdout).output = some LoopExit.failed ∧
      (relays s cmd stdin object stdout).crash = none := by
  obtain ⟨e1, -, h1⟩ := inputLoop_total (fuelFor object) s cmd stdin object
    (by simp [fuelFor])
  obtain ⟨hx, hl, hc⟩ := h1 p hcmd
  obtain ⟨e2, -, h2⟩ := outputLoop_total (fuelFor stdout)
    (inputLoop (fuelFor object) s cmd stdin object).world
    { cmd with Process := some { kills := p.kills + 1 } } stdout (by simp [fuelFor])
  obtain ⟨hy, hm, hd⟩ := h2 { kills := p.kills + 1 } rfl
  clear h1 h2
  rw [hl] at hm
  refine ⟨e1, e2, ?_⟩
  unfold relays
  simp only [hx, hc, hy, hm, hd]
  simp

/-! ## Facts about `cmd.Run()` and the goroutines -/

/-- When the child cannot be started: `Start` has closed the pipes, `download` reports the
error of `cmd.Run()`, closes the passphrase descriptor and returns; the input goroutine
then reports its own error and panics in `cmd.Process.Kill()`. -/
theorem run_not_started (o : Oracle) (s : World) (cmd : Cmd) (phrasefd : File) (stdin : Pipe)
    (object stdout : Reader) (e : String) (hstart : o.start = some e)
    (hcmd : cmd.Process = none) :
    ∃ e1 : String,
      (run o s cmd phrasefd stdin object stdout).world.log =
        s.log ++ [Event.setExtraFiles, Event.start, Event.released Resource.stdinPipe,
          Event.released Resource.stdoutPipe,
          Event.handleError ("Error running GnuPG process: " ++ e),
          Event.released Resource.phraseReader,
          Event.handleError ("Transferring object from storage: " ++ e1)] ∧
      (run o s cmd phrasefd stdin object stdout).panic = none ∧
      (run o s cmd phrasefd stdin object stdout).crash = some Panic.nilDereference ∧
      (run o s cmd phrasefd stdin object stdout).input = some LoopExit.crashed ∧
      (run o s cmd phrasefd stdin object stdout).output = none ∧
      (run o s cmd phrasefd stdin object stdout).runErr = some e ∧
      (run o s cmd phrasefd stdin object stdout).cmd =
        some { cmd with ExtraFiles := [phrasefd] } := by
  obtain ⟨e1, hl, hc, hi, ho, hk⟩ := relays_nil
    ((handleError (closePipes ((s.record Event.setExtraFiles).record Event.start))
      ("Error running GnuPG process: " ++ e)).record (Event.released Resource.phraseReader))
    { cmd with ExtraFiles := [phrasefd] } (closedPipe stdin) object closedReader hcmd
  refine ⟨e1, ?_⟩
  unfold run
  simp only [hstart, hl, hc, hi, ho, hk]
  simp [closePipes, World.record, handleError]

/-- When the child starts, both relay loops report an error and kill it, `Wait` closes the
pipes, an error of `Wait` is reported, and the deferred close of the passphrase
descriptor runs. -/
theorem run_started (o : Oracle) (s : World) (cmd : Cmd) (phrasefd : File) (stdin : Pipe)
    (object stdout : Reader) (hstart : o.start = none) :
    ∃ e1 e2 : String,
      (run o s cmd phrasefd stdin object stdout).world.log =
        s.log ++ [Event.setExtraFiles, Event.start,
          Event.handleError ("Transferring object from storage: " ++ e1), Event.kill,
          Event.handleError ("Transferring decrypted file to response: " ++ e2), Event.kill,
          Event.wait, Event.released Resource.stdinPipe,
          Event.released Resource.stdoutPipe]
        ++ (match o.wait with
            | some e => [Event.handleError ("Error running GnuPG process: " ++ e)]
            | none => [])
        ++ [Event.released Resource.phraseReader] ∧
      (run o s cmd phrasefd stdin object stdout).panic = none ∧
      (run o s cmd phrasefd stdin object stdout).crash = none ∧
      (run o s cmd phrasefd stdin object stdout).input = some LoopExit.failed ∧
      (run o s cmd phrasefd stdin object stdout).output = some LoopExit.failed ∧
      (run o s cmd phrasefd stdin object stdout).runErr = o.wait ∧
      (run o s cmd phrasefd stdin object stdout).cmd =
        some { cmd with ExtraFiles := [phrasefd], Process := some { kills := 2 } } := by
  obtain ⟨e1, e2, hl, hc, hi, ho, hk⟩ := relays_started
    ((s.record Event.setExtraFiles).record Event.start)
    { cmd with ExtraFiles := [phrasefd], Process := some { kills := 0 } } stdin object stdout
    { kills := 0 } rfl
  simp only [Nat.zero_add, World.record] at hl hc hi ho hk
  refine ⟨e1, e2, ?_⟩
  unfold run
  simp only [World.record, hstart, hl, hc, hi, ho, hk]
  cases hw : o.wait <;>
    simp [closePipes, World.record, handleError]

/-! ## The ways through `download` -/

/-- When every step before `cmd.Run()` succeeds, `download` reaches `cmd.Run()` having
logged `launchLog`, with the command `gpg --batch --passphrase-fd 3` and the passphrase
in the extra file. -/
theorem download_launch (cfg : Config) (o : Oracle) (s : World) (passphrase snapshot_id : String)
    (u : URL) (object stdout : Reader) (stdin : Pipe)
    (hv : _fetch_passphrase cfg o.vault = Except.ok (some passphrase))
    (hs : _latest_snapshot o.Errorf o.search = Outcome.ok snapshot_id)
    (hu : o.urlParse snapshot_id = Except.ok u)
    (hm : o.minioNew = none)
    (hg : o.getObject u.Host (TrimPrefix u.Path "/") = Except.ok object)
    (hi : o.stdinPipe = Except.ok stdin)
    (hp : o.osPipe = none)
    (ho : o.stdoutPipe = Except.ok stdout) :
    download cfg o s =
      run o { s with log := s.log ++ launchLog snapshot_id u }
        (Command "gpg" ["--batch", "--passphrase-fd", "3"]) { content := bytes passphrase }
        stdin object stdout := by
  unfold download
  simp [hv, hs, hu, hm, hg, hi, hp, ho, readerFile, World.record, launchLog, NewReader]

/-- Every request takes one of three ways through `download`: it reaches `cmd.Run()`; or
it fails at one of the steps before, having logged a beginning of `launchLog`, one
`handleError` call and, when the passphrase descriptor existed, its deferred close; or
`_latest_snapshot` panics. -/
theorem download_cases (cfg : Config) (o : Oracle) (s : World) :
    (∃ (passphrase snapshot_id : String) (u : URL) (object stdout : Reader) (stdin : Pipe),
      _fetch_passphrase cfg o.vault = Except.ok (some passphrase) ∧
      _latest_snapshot o.Errorf o.search = Outcome.ok snapshot_id ∧
      o.urlParse snapshot_id = Except.ok u ∧
      download cfg o s =
        run o { s with log := s.log ++ launchLog snapshot_id u }
          (Command "gpg" ["--batch", "--passphrase-fd", "3"]) { content := bytes passphrase }
          stdin object stdout) ∨
    (∃ (k : Nat) (snapshot_id : String) (u : URL) (msg : String),
      1 ≤ k ∧ k ≤ 12 ∧
      (download cfg o s).world.log =
        s.log ++ (launchLog snapshot_id u).take k ++ [Event.handleError msg]
          ++ (if k = 12 then [Event.released Resource.phraseReader] else []) ∧
      (download cfg o s).panic = none ∧
      (download cfg o s).input = none ∧
      (download cfg o s).output = none ∧
      (download cfg o s).runErr = none ∧
      ((download cfg o s).cmd = none ∨
        (download cfg o s).cmd = some (Command "gpg" ["--batch", "--passphrase-fd", "3"])) ∧
      (∀ p, _fetch_passphrase cfg o.vault = Except.ok (some p) → 2 ≤ k) ∧
      (k ≤ 8 ∨ k = 12)) ∨
    (∃ q : Panic,
      (download cfg o s).world.log = s.log ++ [Event.fetchPassphrase, Event.latestSnapshot] ∧
      (download cfg o s).panic = some q ∧
      (download cfg o s).cmd = none ∧
      (download cfg o s).input = none ∧
      (download cfg o s).output = none ∧
      (download cfg o s).runErr = none) := by
  cases hv : _fetch_passphrase cfg o.vault with
  | error c =>
    refine Or.inr (Or.inl ⟨1, "", ⟨"", "", ""⟩,
      ("Fetching passphrase from Vault: " ++ c), by norm_num, by norm_num, ?_⟩)
    simp [download, hv, handleError, World.record, launchLog]
  | ok pp =>
  cases pp with
  | none =>
    refine Or.inr (Or.inl ⟨1, "", ⟨"", "", ""⟩,
      "Empty passphrase returned from Vault", by norm_num, by norm_num, ?_⟩)
    simp [download, hv, handleError, World.record, launchLog]
  | some passphrase =>
  cases hs : _latest_snapshot o.Errorf o.search with
  | panic q =>
    refine Or.inr (Or.inr ⟨q, ?_⟩)
    simp [download, hv, hs, World.record]
  | error c =>
    refine Or.inr (Or.inl ⟨2, "", ⟨"", "", ""⟩,
      ("Fetching latest snapshot id from backups index: " ++ c), by norm_num, by norm_num, ?_⟩)
    simp [download, hv, hs, handleError, World.record, launchLog]
  | ok snapshot_id =>
  cases hu : o.urlParse snapshot_id with
  | error c =>
    refine Or.inr (Or.inl ⟨3, snapshot_id, ⟨"", "", ""⟩,
      ("Unable to parse url (" ++ snapshot_id
      ++ ") for latest snapshot id from backups index: " ++ c), by norm_num, by norm_num, ?_⟩)
    simp [download, hv, hs, hu, handleError, World.record, launchLog]
  | ok u =>
  cases hm : o.minioNew with
  | some c =>
    refine Or.inr (Or.inl ⟨4, snapshot_id, u,
      ("Unable to obtain handle on object storage: " ++ c), by norm_num, by norm_num, ?_⟩)
    simp [download, hv, hs, hu, hm, handleError, World.record, launchLog]
  | none =>
  cases hg : o.getObject u.Host (TrimPrefix u.Path "/") with
  | error c =>
    refine Or.inr (Or.inl ⟨5, snapshot_id, u,
      ("Error with GetObject: " ++ c), by norm_num, by norm_num, ?_⟩)
    simp [download, hv, hs, hu, hm, hg, handleError, World.record, launchLog]
  | ok object =>
  cases hi : o.stdinPipe with
  | error c =>
    refine Or.inr (Or.inl ⟨7, snapshot_id, u,
      ("GnuPG stdin: " ++ c), by norm_num, by norm_num, ?_⟩)
    simp [download, hv, hs, hu, hm, hg, hi, handleError, World.record, launchLog]
  | ok stdin =>
  cases hp : o.osPipe with
  | some c =>
    refine Or.inr (Or.inl ⟨8, snapshot_id, u,
      ("Unable to initialise GnuPG passphrase reader: " ++ c), by norm_num, by norm_num, ?_⟩)
    simp [download, hv, hs, hu, hm, hg, hi, hp, readerFile, handleError, World.record,
      launchLog]
  | none =>
  cases ho : o.stdoutPipe with
  | error c =>
    refine Or.inr (Or.inl ⟨12, snapshot_id, u,
      ("GnuPG stdout: " ++ c), by norm_num, by norm_num, ?_⟩)
    simp [download, hv, hs, hu, hm, hg, hi, hp, ho, readerFile, handleError, World.record,
      launchLog]
  | ok stdout =>
    exact Or.inl ⟨passphrase, snapshot_id, u, object, stdout, stdin, rfl, rfl, hu,
      download_launch cfg o s passphrase snapshot_id u object stdout stdin hv hs hu hm hg hi
        hp ho⟩

/-- The command of a request whose passphrase is `passphrase`: always
`gpg --batch --passphrase-fd 3` with no environment of its own; its extra files are empty
until `cmd.Run()` is reached (and then the command has not been started), afterwards they
are the one descriptor that delivers the passphrase. -/
theorem download_cmd (cfg : Config) (o : Oracle) (s : World) (passphrase : String) (c : Cmd)
    (hv : _fetch_passphrase cfg o.vault = Except.ok (some passphrase))
    (hc : (download cfg o s).cmd = some c) :
    c.Path = "gpg" ∧ c.Args = ["gpg", "--batch", "--passphrase-fd", "3"] ∧ c.Env = [] ∧
    ((c.ExtraFiles = [] ∧ c.Process = none) ∨
      c.ExtraFiles = [{ content := bytes passphrase }]) := by
  rcases download_cases cfg o s with
    ⟨p, id, u, obj, so, si, hp, -, -, hrun⟩ | ⟨k, id, u, msg, -, -, -, -, -, -, -, hcmd, -⟩ |
    ⟨q, -, -, hcmd, -⟩
  · rw [hv] at hp
    have hpp : passphrase = p := by
      injection hp with h; injection h
    subst hpp
    rw [hrun] at hc
    cases hst : o.start with
    | some e =>
      obtain ⟨m1, -, -, -, -, -, -, hcm⟩ := run_not_started o
        { s with log := s.log ++ launchLog id u }
        (Command "gpg" ["--batch", "--passphrase-fd", "3"]) { content := bytes passphrase }
        si obj so e hst rfl
      rw [hcm] at hc
      injection hc with hc
      subst hc
      simp [Command]
    | none =>
      obtain ⟨m1, m2, -, -, -, -, -, -, hcm⟩ := run_started o
        { s with log := s.log ++ launchLog id u }
        (Command "gpg" ["--batch", "--passphrase-fd", "3"]) { content := bytes passphrase }
        si obj so hst
      rw [hcm] at hc
      injection hc with hc
      subst hc
      simp [Command]
  · rcases hcmd with h | h
    · rw [h] at hc; cases hc
    · rw [h] at hc
      injection hc with hc
      subst hc
      simp [Command]
  · rw [hcmd] at hc; cases hc

/-- Whether a request with a passphrase gets as far as creating the command is decided by
the metadata index, `url.Parse` and the storage alone. -/
theorem download_cmd_built (cfg : Config) (o : Oracle) (s : World) (passphrase : String)
    (hv : _fetch_passphrase cfg o.vault = Except.ok (some passphrase)) :
    (download cfg o s).cmd.isSome = true ↔
      ∃ (snapshot_id : String) (u : URL) (object : Reader),
        _latest_snapshot o.Errorf o.search = Outcome.ok snapshot_id ∧
        o.urlParse snapshot_id = Except.ok u ∧ o.minioNew = none ∧
        o.getObject u.Host (TrimPrefix u.Path "/") = Except.ok object := by
  cases hs : _latest_snapshot o.Errorf o.search with
  | panic q => simp [download, hv, hs]
  | error c => simp [download, hv, hs]
  | ok snapshot_id =>
  cases hu : o.urlParse snapshot_id with
  | error c => simp [download, hv, hs, hu]
  | ok u =>
  cases hm : o.minioNew with
  | some c => simp [download, hv, hs, hu, hm]
  | none =>
  cases hg : o.getObject u.Host (TrimPrefix u.Path "/") with
  | error c => simp [download, hv, hs, hu, hm, hg]
  | ok object =>
  have hbuilt : (download cfg o s).cmd.isSome = true := by
    cases hi : o.stdinPipe with
    | error c => simp [download, hv, hs, hu, hm, hg, hi]
    | ok stdin =>
    cases hp : o.osPipe with
    | some c => simp [download, hv, hs, hu, hm, hg, hi, hp, readerFile]
    | none =>
    cases ho : o.stdoutPipe with
    | error c => simp [download, hv, hs, hu, hm, hg, hi, hp, ho, readerFile]
    | ok stdout =>
      rw [download_launch cfg o s passphrase snapshot_id u object stdout stdin
        hv hs hu hm hg hi hp ho]
      cases hst : o.start with
      | some e =>
        obtain ⟨m1, -, -, -, -, -, -, hcm⟩ := run_not_started o
          { s with log := s.log ++ launchLog snapshot_id u }
          (Command "gpg" ["--batch", "--passphrase-fd", "3"]) { content := bytes passphrase }
          stdin object stdout e hst rfl
        rw [hcm]; rfl
      | none =>
        obtain ⟨m1, m2, -, -, -, -, -, -, hcm⟩ := run_started o
          { s with log := s.log ++ launchLog snapshot_id u }
          (Command "gpg" ["--batch", "--passphrase-fd", "3"]) { content := bytes passphrase }
          stdin object stdout hst
        rw [hcm]; rfl
  rw [hbuilt]
  refine ⟨fun _ => ⟨snapshot_id, u, object, ?_⟩, fun _ => rfl⟩
  simp [hu, hg]

/-! ## Telling the messages apart -/

/-- Appending to a message of at least eleven characters keeps its stem. -/
theorem stem_append (a t : String) (h : 11 ≤ a.length) : stem (a ++ t) = stem a := by
  unfold stem
  rw [String.data_append]
  exact List.take_append_of_le_length h

/-- The parse-error message differs from every message that starts with another stem. -/
theorem parse_message_ne (snapshot_id e a t : String) (ha : 11 ≤ a.length)
    (h : stem a ≠ stem "Unable to parse url (") :
    "Unable to parse url (" ++ snapshot_id
      ++ ") for latest snapshot id from backups index: " ++ e ≠ a ++ t := by
  intro heq
  apply h
  rw [← stem_append a t ha, ← heq, String.append_assoc, String.append_assoc]
  exact stem_append _ _ (by decide)

/-! ## The claims -/

/-- C1. Both relay loops end for every finite source and copy its bytes to the sink in
order; the input loop leaves in the pipe exactly the bytes of the object, but the output
loop then reports the end of the stream through `handleError`, which writes to the
response it relays to: the body is the bytes of the source followed by the line
"Transferring decrypted file to response: EOF", so it is not the source's bytes. -/
theorem relay_bytes (s : World) (cmd : Cmd) (stdin : Pipe) (object stdout : Reader)
    (hin : stdin.room = none) (hout : s.w.conn.room = none) (hfail : stdout.fail = none) :
    (inputLoop (fuelFor object) s cmd stdin object).exit ≠ none ∧
    (inputLoop (fuelFor object) s cmd stdin object).stdin.written =
      stdin.written ++ object.data ∧
    (outputLoop (fuelFor stdout) s cmd stdout).exit ≠ none ∧
    (outputLoop (fuelFor stdout) s cmd stdout).world.w.body =
      s.w.body ++ stdout.data
        ++ bytes "Transferring decrypted file to response: EOF" ++ [10] ∧
    (outputLoop (fuelFor stdout) s cmd stdout).world.w.body ≠ s.w.body ++ stdout.data := by
  have hbody : (outputLoop (fuelFor stdout) s cmd stdout).world.w.body =
      s.w.body ++ stdout.data
        ++ bytes "Transferring decrypted file to response: EOF" ++ [10] := by
    rw [outputLoop_run _ s cmd stdout hout (by simp [fuelFor]), hfail]
    have hw : ∀ w : ResponseWriter, w.conn.room = none →
        (httpError w ("Transferring decrypted file to response: " ++ EOF) 500).conn.written =
          w.conn.written ++ bytes "Transferring decrypted file to response: EOF" ++ [10] := by
      intro w h
      have := httpError_body w ("Transferring decrypted file to response: " ++ EOF) 500 h
      simpa [ResponseWriter.body] using this
    by_cases hd : stdout.data = []
    · cases hk : cmd.Process <;>
        simp [Kill, hk, handleError, World.record, hd, hw s.w hout, ResponseWriter.body]
    · have h2 := hw
        { status := some (s.w.status.getD 200)
          conn := { written := s.w.conn.written ++ stdout.data, room := s.w.conn.room
                    cause := s.w.conn.cause } } hout
      cases hk : cmd.Process <;>
        simp [Kill, hk, handleError, World.record, hd, h2, ResponseWriter.body]
  refine ⟨?_, ?_, ?_, hbody, ?_⟩
  · rw [inputLoop_run _ s cmd stdin object hin (by simp [fuelFor])]
    cases hk : cmd.Process <;> simp [Kill, hk]
  · rw [inputLoop_run _ s cmd stdin object hin (by simp [fuelFor])]
    cases hk : cmd.Process <;> simp [Kill, hk]
  · rw [outputLoop_run _ s cmd stdout hout (by simp [fuelFor])]
    cases hk : cmd.Process <;> simp [Kill, hk]
  · rw [hbody]
    intro h
    have := congrArg List.length h
    simp at this

/-- Witness for C1: a started child that writes two bytes; the response body is those two
bytes followed by the error line. -/
theorem relay_bytes_witness :
    (outputLoop (fuelFor ⟨[4, 5], none⟩) (fresh client) startedGpg ⟨[4, 5], none⟩).world.w.body =
      [4, 5] ++ bytes "Transferring decrypted file to response: EOF" ++ [10] :=
  (relay_bytes (fresh client) startedGpg client ⟨[1, 2, 3], none⟩ ⟨[4, 5], none⟩
    rfl rfl rfl).2.2.2.1

/-- C2. A finite source that reaches end-of-stream without a read error, relayed to a sink
that accepts every write, does not make the loops exit through `break`: the final
`io.CopyN` returns `io.EOF`, so each loop calls `handleError` with "...: EOF" and kills the
started child. -/
theorem relay_end_of_stream (s : World) (cmd : Cmd) (stdin : Pipe) (object stdout : Reader)
    (p : Process) (hin : stdin.room = none) (hout : s.w.conn.room = none)
    (hobj : object.fail = none) (hstd : stdout.fail = none) (hp : cmd.Process = some p) :
    (inputLoop (fuelFor object) s cmd stdin object).exit = some LoopExit.failed ∧
    (inputLoop (fuelFor object) s cmd stdin object).world.log =
      s.log ++ [Event.handleError "Transferring object from storage: EOF", Event.kill] ∧
    (inputLoop (fuelFor object) s cmd stdin object).cmd.Process =
      some { kills := p.kills + 1 } ∧
    (outputLoop (fuelFor stdout) s cmd stdout).exit = some LoopExit.failed ∧
    (outputLoop (fuelFor stdout) s cmd stdout).world.log =
      s.log ++ [Event.handleError "Transferring decrypted file to response: EOF",
        Event.kill] ∧
    (outputLoop (fuelFor stdout) s cmd stdout).cmd.Process =
      some { kills := p.kills + 1 } := by
  have e1 : "Transferring object from storage: " ++ EOF =
      "Transferring object from storage: EOF" := rfl
  have e2 : "Transferring decrypted file to response: " ++ EOF =
      "Transferring decrypted file to response: EOF" := rfl
  rw [inputLoop_run _ s cmd stdin object hin (by simp [fuelFor]),
    outputLoop_run _ s cmd stdout hout (by simp [fuelFor]), hobj, hstd]
  simp [Kill, hp, handleError, World.record, e1, e2]

/-- Witness for C2: the three bytes of an object relayed to a started child. -/
theorem relay_end_of_stream_witness :
    (inputLoop (fuelFor ⟨[1, 2, 3], none⟩) (fresh client) startedGpg client
      ⟨[1, 2, 3], none⟩).exit = some LoopExit.failed :=
  (relay_end_of_stream (fresh client) startedGpg client ⟨[1, 2, 3], none⟩ ⟨[4, 5], none⟩
    { kills := 0 } rfl rfl rfl rfl rfl).1

/-- C3. A well-formed search response whose hits list is empty makes `_latest_snapshot`
panic at `[0]` (index out of range) instead of returning an error: `download` ends in
that panic, `handleError` is not called and no status 500 is written. The storage is not
reached either. -/
theorem empty_hits_panic (cfg : Config) (o : Oracle) (s : World) (passphrase : String)
    (mapResp hits : List (String × JSON))
    (hv : _fetch_passphrase cfg o.vault = Except.ok (some passphrase))
    (hs : o.search = SearchReply.decoded mapResp)
    (he : index mapResp "error" = JSON.null)
    (hh : index mapResp "hits" = JSON.object hits)
    (hl : index hits "hits" = JSON.array []) :
    (download cfg o s).panic = some (Panic.indexOutOfRange 0 0) ∧
    (download cfg o s).world.w = s.w ∧
    (download cfg o s).world.log = s.log ++ [Event.fetchPassphrase, Event.latestSnapshot] := by
  have hsnap : _latest_snapshot o.Errorf o.search =
      Outcome.panic (Panic.indexOutOfRange 0 0) := by
    rw [hs]
    simp only [_latest_snapshot, he, hh, hl, assertMap, assertSlice, first, bind,
      Outcome.bind]
  unfold download
  simp [hv, hsnap, World.record]

/-- Witness for C3: the request whose metadata query matches no document. -/
theorem empty_hits_panic_witness :
    (download cfg0 noMatch (fresh client)).panic = some (Panic.indexOutOfRange 0 0) :=
  (empty_hits_panic cfg0 noMatch (fresh client) "hunter2"
    [("hits", JSON.object [("hits", JSON.array [])])] [("hits", JSON.array [])]
    rfl rfl rfl rfl rfl).1

/-- C4. When `_fetch_passphrase` returns an error with text `c`, `download` answers status
500, writes the line "Fetching passphrase from Vault: " followed by `c`, and returns:
the log holds the Vault fetch and the `handleError` call only, so the snapshot is not
resolved, no object is opened and no command is created. -/
theorem passphrase_error (cfg : Config) (o : Oracle) (conn : Pipe) (c : String)
    (hroom : conn.room = none)
    (h : _fetch_passphrase cfg o.vault = Except.error c) :
    (download cfg o (fresh conn)).world.w.status = some 500 ∧
    (download cfg o (fresh conn)).world.w.body =
      conn.written ++ bytes ("Fetching passphrase from Vault: " ++ c) ++ [10] ∧
    (download cfg o (fresh conn)).world.log =
      [Event.fetchPassphrase, Event.handleError ("Fetching passphrase from Vault: " ++ c)] ∧
    (download cfg o (fresh conn)).cmd = none ∧
    (download cfg o (fresh conn)).panic = none := by
  unfold download
  simp only [h]
  refine ⟨?_, ?_, ?_, trivial, trivial⟩
  · simp [handleError, World.record, fresh, httpError_status]
  · have := httpError_body (fresh conn).w ("Fetching passphrase from Vault: " ++ c) 500 hroom
    simpa [handleError, World.record, fresh, ResponseWriter.body] using this
  · simp [handleError, World.record, fresh]

/-- Witness for C4: Vault refuses the connection. -/
theorem passphrase_error_witness :
    (download cfg0 vaultDown (fresh client)).world.log =
      [Event.fetchPassphrase,
        Event.handleError ("Fetching passphrase from Vault: " ++ ("Reading passphrase key: "
          ++ "dial tcp 10.0.0.7:8200: connect: connection refused"))] :=
  (passphrase_error cfg0 vaultDown client
    ("Reading passphrase key: " ++ "dial tcp 10.0.0.7:8200: connect: connection refused")
    rfl rfl).2.2.1

/-- C5. A secret whose passphrase is the empty string is not refused:
`_fetch_passphrase` returns a non-nil pointer to it, the `passphrase == nil` test in
`download` does not fire, and the next operation of the request is the snapshot lookup,
not `handleError`. -/
theorem empty_passphrase_accepted (cfg : Config) (o : Oracle) (conn : Pipe)
    (Data data : List (String × JSON))
    (hv : o.vault = VaultReply.secret Data)
    (hd : index Data "data" = JSON.object data)
    (hk : index data cfg.passphraseSecretKey = JSON.string "") :
    _fetch_passphrase cfg o.vault = Except.ok (some "") ∧
    (download cfg o (fresh conn)).world.log.take 2 =
      [Event.fetchPassphrase, Event.latestSnapshot] := by
  have hf : _fetch_passphrase cfg o.vault = Except.ok (some "") := by
    rw [hv]; simp [_fetch_passphrase, hd, hk]
  refine ⟨hf, ?_⟩
  rcases download_cases cfg o (fresh conn) with
    ⟨p, id, u, obj, so, si, -, -, -, hrun⟩ | ⟨k, id, u, msg, h1, h12, hlog, -, -, -, -, -, hk2, -⟩ |
    ⟨q, hlog, -⟩
  · rw [hrun]
    cases hst : o.start with
    | some e =>
      obtain ⟨m1, hl, -⟩ := run_not_started o
        { (fresh conn) with log := (fresh conn).log ++ launchLog id u }
        (Command "gpg" ["--batch", "--passphrase-fd", "3"]) { content := bytes p } si obj so
        e hst rfl
      rw [hl]; simp [fresh, launchLog]
    | none =>
      obtain ⟨m1, m2, hl, -⟩ := run_started o
        { (fresh conn) with log := (fresh conn).log ++ launchLog id u }
        (Command "gpg" ["--batch", "--passphrase-fd", "3"]) { content := bytes p } si obj so hst
      rw [hl]; simp [fresh, launchLog]
  · have h2 := hk2 "" hf
    rw [hlog]
    interval_cases k <;> simp [fresh, launchLog]
  · rw [hlog]; simp [fresh]

/-- Witness for C5: Vault holds the empty string under the configured key. -/
theorem empty_passphrase_accepted_witness :
    _fetch_passphrase cfg0 emptySecret.vault = Except.ok (some "") ∧
    (download cfg0 emptySecret (fresh client)).world.log.take 2 =
      [Event.fetchPassphrase, Event.latestSnapshot] :=
  empty_passphrase_accepted cfg0 emptySecret client
    [("data", JSON.object [("passphrase", JSON.string "")])]
    [("passphrase", JSON.string "")] rfl rfl rfl

/-- C6, counterexample. The storage connection breaks while the object is relayed: the
input loop reports it and kills the child, the output loop reports the end of the
child's output, and `download` reports the error of `cmd.Run()`: three `handleError`
calls in one run. And the run whose metadata query matches nothing fails in a panic
without any `handleError` call. -/
theorem three_errors_in_one_run :
    (download cfg0 brokenStorage (fresh client)).world.stderr =
      ["ERROR: Transferring object from storage: connection reset by peer\n",
        "ERROR: Transferring decrypted file to response: EOF\n",
        "ERROR: Error running GnuPG process: signal: killed\n"] ∧
    errorCount (download cfg0 brokenStorage (fresh client)).world.log = 3 ∧
    (download cfg0 noMatch (fresh client)).panic = some (Panic.indexOutOfRange 0 0) ∧
    errorCount (download cfg0 noMatch (fresh client)).world.log = 0 := by
  decide

/-- C6, amended. Every run of `download` that returns before the relay loops are launched
has called `handleError` exactly once. Once they are launched nothing is discarded:
`cmd.Run()` returns the error of starting the child or else of waiting for it, and the
number of `handleError` calls is the number of relay loops that went through their error
branch, plus one when `cmd.Run()` returned an error. -/
theorem error_reports (cfg : Config) (o : Oracle) (conn : Pipe) :
    (Event.go Goroutine.inputLoop ∉ (download cfg o (fresh conn)).world.log →
      (download cfg o (fresh conn)).panic = none →
      errorCount (download cfg o (fresh conn)).world.log = 1) ∧
    (Event.go Goroutine.inputLoop ∈ (download cfg o (fresh conn)).world.log →
      (download cfg o (fresh conn)).runErr =
        (match o.start with
          | some e => some e
          | none => o.wait) ∧
      errorCount (download cfg o (fresh conn)).world.log =
        reported (download cfg o (fresh conn)).input
          + reported (download cfg o (fresh conn)).output
          + (if (download cfg o (fresh conn)).runErr.isSome then 1 else 0)) := by
  rcases download_cases cfg o (fresh conn) with
    ⟨p, id, u, obj, so, si, -, -, -, hrun⟩ |
    ⟨k, id, u, msg, h1, h12, hlog, hpanic, hin, hout, herr, -, -⟩ |
    ⟨q, hlog, hpanic, -, hin, hout, herr⟩
  · rw [hrun]
    cases hst : o.start with
    | some e =>
      obtain ⟨m1, hl, hq, -, hi, ho, he, -⟩ := run_not_started o
        { (fresh conn) with log := (fresh conn).log ++ launchLog id u }
        (Command "gpg" ["--batch", "--passphrase-fd", "3"]) { content := bytes p } si obj so
        e hst rfl
      rw [hl, hq, hi, ho, he]
      simp [fresh, launchLog, errorCount, reported, List.filter]
    | none =>
      obtain ⟨m1, m2, hl, hq, -, hi, ho, he, -⟩ := run_started o
        { (fresh conn) with log := (fresh conn).log ++ launchLog id u }
        (Command "gpg" ["--batch", "--passphrase-fd", "3"]) { content := bytes p } si obj so hst
      rw [hl, hq, hi, ho, he]
      cases hw : o.wait <;>
        simp [fresh, launchLog, errorCount, reported, List.filter]
  · rw [hlog, hin, hout, herr]
    interval_cases k <;> simp [fresh, launchLog, errorCount, reported, List.filter]
  · rw [hlog, hpanic]
    simp [fresh]

/-- Witness for C6: when Vault cannot be reached the run fails before any relay loop exists
and reports one error; when the storage breaks the three reports are those of the two
loops and of `cmd.Run()`; when `gpg` is missing the two reports are those of `cmd.Run()`
and of the input loop. -/
theorem error_reports_witness :
    errorCount (download cfg0 vaultDown (fresh client)).world.log = 1 ∧
    ((download cfg0 brokenStorage (fresh client)).runErr = some "signal: killed" ∧
      errorCount (download cfg0 brokenStorage (fresh client)).world.log =
        reported (download cfg0 brokenStorage (fresh client)).input
          + reported (download cfg0 brokenStorage (fresh client)).output
          + (if (download cfg0 brokenStorage (fresh client)).runErr.isSome then 1 else 0)) ∧
    ((download cfg0 noGpg (fresh client)).runErr =
        some "exec: gpg: executable file not found in $PATH" ∧
      errorCount (download cfg0 noGpg (fresh client)).world.log =
        reported (download cfg0 noGpg (fresh client)).input
          + reported (download cfg0 noGpg (fresh client)).output
          + (if (download cfg0 noGpg (fresh client)).runErr.isSome then 1 else 0)) :=
  ⟨(error_reports cfg0 vaultDown client).1 (by decide) (by decide),
    (error_reports cfg0 brokenStorage client).2 (by decide),
    (error_reports cfg0 noGpg client).2 (by decide)⟩

/-- C7. The command does not depend on the passphrase. Two requests that differ only in
what Vault returns, with passphrases `p1` and `p2`, both create the command or both do
not, and the commands have the same name, arguments and environment:
`gpg --batch --passphrase-fd 3` and no environment of their own. The passphrase is only
ever the content of the single entry of `ExtraFiles`; that entry, number 0, is
descriptor 3 in the child, the one the arguments name. -/
theorem command_independent_of_passphrase (cfg : Config) (o : Oracle) (s : World)
    (v1 v2 : VaultReply) (p1 p2 : String)
    (h1 : _fetch_passphrase cfg v1 = Except.ok (some p1))
    (h2 : _fetch_passphrase cfg v2 = Except.ok (some p2)) :
    (download cfg { o with vault := v1 } s).cmd.isSome =
      (download cfg { o with vault := v2 } s).cmd.isSome ∧
    ∀ c1 c2 : Cmd,
      (download cfg { o with vault := v1 } s).cmd = some c1 →
      (download cfg { o with vault := v2 } s).cmd = some c2 →
      c1.Path = c2.Path ∧ c1.Args = c2.Args ∧ c1.Env = c2.Env ∧
      c1.Path = "gpg" ∧
      c1.Args = ["gpg", "--batch", "--passphrase-fd", toString (childFd 0)] ∧
      c1.Env = [] ∧
      ((c1.ExtraFiles = [] ∧ c1.Process = none) ∨
        c1.ExtraFiles = [{ content := bytes p1 }]) ∧
      ((c2.ExtraFiles = [] ∧ c2.Process = none) ∨
        c2.ExtraFiles = [{ content := bytes p2 }]) := by
  constructor
  · rw [Bool.eq_iff_iff, download_cmd_built cfg { o with vault := v1 } s p1 h1,
      download_cmd_built cfg { o with vault := v2 } s p2 h2]
  · intro c1 c2 hc1 hc2
    obtain ⟨a1, a2, a3, a4⟩ := download_cmd cfg { o with vault := v1 } s p1 c1 h1 hc1
    obtain ⟨b1, b2, b3, b4⟩ := download_cmd cfg { o with vault := v2 } s p2 c2 h2 hc2
    have h3 : toString (childFd 0) = "3" := by decide
    rw [h3]
    exact ⟨by rw [a1, b1], by rw [a2, b2], by rw [a3, b3], a1, a2, a3, a4, b4⟩

/-- Witness for C7: the same request with the passphrases "hunter2" and "correct horse". -/
theorem command_independent_of_passphrase_witness :
    (download cfg0 { healthy with vault := vaultSecret "hunter2" } (fresh client)).cmd =
      some { Path := "gpg", Args := ["gpg", "--batch", "--passphrase-fd", "3"], Env := [],
             ExtraFiles := [{ content := bytes "hunter2" }],
             Process := some { kills := 2 } } ∧
    (download cfg0 { healthy with vault := vaultSecret "correct horse" } (fresh client)).cmd =
      some { Path := "gpg", Args := ["gpg", "--batch", "--passphrase-fd", "3"], Env := [],
             ExtraFiles := [{ content := bytes "correct horse" }],
             Process := some { kills := 2 } } ∧
    (["gpg", "--batch", "--passphrase-fd", "3"] : List String) =
      ["gpg", "--batch", "--passphrase-fd", toString (childFd 0)] :=
  ⟨by decide, by decide,
    ((command_independent_of_passphrase cfg0 healthy (fresh client) (vaultSecret "hunter2")
      (vaultSecret "correct horse") "hunter2" "correct horse" rfl rfl).2
      { Path := "gpg", Args := ["gpg", "--batch", "--passphrase-fd", "3"], Env := [],
        ExtraFiles := [{ content := bytes "hunter2" }], Process := some { kills := 2 } }
      { Path := "gpg", Args := ["gpg", "--batch", "--passphrase-fd", "3"], Env := [],
        ExtraFiles := [{ content := bytes "correct horse" }], Process := some { kills := 2 } }
      (by decide) (by decide)).2.2.2.2.1⟩

/-- C8, counterexample. In the request where every collaborator answers, operations 14 to
17 of the log are: launch the input loop, launch the output loop, set `cmd.ExtraFiles`,
start the child. Both relay goroutines exist before the secret descriptor is attached
and before the process is started. -/
theorem relays_launched_first :
    ((download cfg0 healthy (fresh client)).world.log.drop 13).take 4 =
      [Event.go Goroutine.inputLoop, Event.go Goroutine.outputLoop, Event.setExtraFiles,
        Event.start] := by
  decide

/-- C8, amended. In every run that launches the relay loops, the log begins with
`launchLog`, in which the stdin pipe, the passphrase descriptor and the stdout pipe are
created before the two `go` statements that end it, and goes on with the assignment of
`cmd.ExtraFiles` and the start of the child: these two come after both relay goroutines
have been launched. -/
theorem launch_order (cfg : Config) (o : Oracle) (conn : Pipe)
    (h : Event.go Goroutine.inputLoop ∈ (download cfg o (fresh conn)).world.log) :
    ∃ (snapshot_id : String) (u : URL) (post : List Event),
      (download cfg o (fresh conn)).world.log =
        launchLog snapshot_id u ++ [Event.setExtraFiles, Event.start] ++ post ∧
      (launchLog snapshot_id u).drop 13 =
        [Event.go Goroutine.inputLoop, Event.go Goroutine.outputLoop] ∧
      Event.acquired Resource.stdinPipe ∈ (launchLog snapshot_id u).take 13 ∧
      Event.acquired Resource.phraseReader ∈ (launchLog snapshot_id u).take 13 ∧
      Event.acquired Resource.stdoutPipe ∈ (launchLog snapshot_id u).take 13 ∧
      Event.setExtraFiles ∉ launchLog snapshot_id u ∧
      Event.start ∉ launchLog snapshot_id u := by
  rcases download_cases cfg o (fresh conn) with
    ⟨p, id, u, obj, so, si, -, -, -, hrun⟩ | ⟨k, id, u, msg, h1, h12, hlog, -⟩ |
    ⟨q, hlog, -⟩
  · rw [hrun]
    cases hst : o.start with
    | some e =>
      obtain ⟨m1, hl, -⟩ := run_not_started o
        { (fresh conn) with log := (fresh conn).log ++ launchLog id u }
        (Command "gpg" ["--batch", "--passphrase-fd", "3"]) { content := bytes p } si obj so
        e hst rfl
      refine ⟨id, u, [Event.released Resource.stdinPipe, Event.released Resource.stdoutPipe,
        Event.handleError ("Error running GnuPG process: " ++ e),
        Event.released Resource.phraseReader,
        Event.handleError ("Transferring object from storage: " ++ m1)], ?_⟩
      rw [hl]
      simp [fresh, launchLog]
    | none =>
      obtain ⟨m1, m2, hl, -⟩ := run_started o
        { (fresh conn) with log := (fresh conn).log ++ launchLog id u }
        (Command "gpg" ["--batch", "--passphrase-fd", "3"]) { content := bytes p } si obj so hst
      refine ⟨id, u, [Event.handleError ("Transferring object from storage: " ++ m1),
        Event.kill, Event.handleError ("Transferring decrypted file to response: " ++ m2),
        Event.kill,
        Event.wait, Event.released Resource.stdinPipe, Event.released Resource.stdoutPipe]
        ++ (match o.wait with
            | some e => [Event.handleError ("Error running GnuPG process: " ++ e)]
            | none => [])
        ++ [Event.released Resource.phraseReader], ?_⟩
      rw [hl]
      simp [fresh, launchLog]
  · exfalso
    rw [hlog] at h
    interval_cases k <;> simp [fresh, launchLog] at h
  · exfalso
    rw [hlog] at h
    simp [fresh] at h

/-- Witness for C8: the request where every collaborator answers launches the loops. -/
theorem launch_order_witness :
    ∃ (snapshot_id : String) (u : URL) (post : List Event),
      (download cfg0 healthy (fresh client)).world.log =
        launchLog snapshot_id u ++ [Event.setExtraFiles, Event.start] ++ post ∧
      (launchLog snapshot_id u).drop 13 =
        [Event.go Goroutine.inputLoop, Event.go Goroutine.outputLoop] ∧
      Event.acquired Resource.stdinPipe ∈ (launchLog snapshot_id u).take 13 ∧
      Event.acquired Resource.phraseReader ∈ (launchLog snapshot_id u).take 13 ∧
      Event.acquired Resource.stdoutPipe ∈ (launchLog snapshot_id u).take 13 ∧
      Event.setExtraFiles ∉ launchLog snapshot_id u ∧
      Event.start ∉ launchLog snapshot_id u :=
  launch_order cfg0 healthy client (by decide)

/-- C9, counterexample. The index returns the reference `snap.enc`; `url.Parse` accepts it
with an empty host, so no parse error is reported and the storage open is called with the
empty bucket name; the failure reported is the one of `GetObject`. -/
theorem empty_bucket_reaches_storage :
    (download cfg0 bareName (fresh client)).world.log =
      [Event.fetchPassphrase, Event.latestSnapshot, Event.urlParse "snap.enc", Event.minioNew,
        Event.getObject "" "snap.enc",
        Event.handleError "Error with GetObject: Bucket name cannot be empty"] := by
  decide

/-- C9, amended. `download` reports a parse error for the snapshot reference exactly when
`url.Parse` returns one: then it answers status 500 with "Unable to parse url (...)" and
asks nothing of the storage. A reference that `url.Parse` accepts is never reported as a
parse error and is passed on as it is: a failure of `minio.New` is reported as such;
once `minio.New` has succeeded, `GetObject` is called with the bucket `u.Host` and the
key `u.Path` without its leading slash, empty or not, and an error of `GetObject` is
reported as "Error with GetObject". -/
theorem locator_handling (cfg : Config) (o : Oracle) (conn : Pipe)
    (passphrase snapshot_id : String)
    (hv : _fetch_passphrase cfg o.vault = Except.ok (some passphrase))
    (hs : _latest_snapshot o.Errorf o.search = Outcome.ok snapshot_id) :
    (∀ e, o.urlParse snapshot_id = Except.error e →
      (download cfg o (fresh conn)).world.w.status = some 500 ∧
      (download cfg o (fresh conn)).world.log =
        [Event.fetchPassphrase, Event.latestSnapshot, Event.urlParse snapshot_id,
          Event.handleError ("Unable to parse url (" ++ snapshot_id
            ++ ") for latest snapshot id from backups index: " ++ e)] ∧
      (download cfg o (fresh conn)).cmd = none) ∧
    (∀ u, o.urlParse snapshot_id = Except.ok u →
      (∀ m, Event.handleError ("Unable to parse url (" ++ snapshot_id
          ++ ") for latest snapshot id from backups index: " ++ m) ∉
        (download cfg o (fresh conn)).world.log) ∧
      (∀ e, o.minioNew = some e →
        (download cfg o (fresh conn)).world.log =
          [Event.fetchPassphrase, Event.latestSnapshot, Event.urlParse snapshot_id,
            Event.minioNew,
            Event.handleError ("Unable to obtain handle on object storage: " ++ e)]) ∧
      (o.minioNew = none →
        Event.getObject u.Host (TrimPrefix u.Path "/") ∈
          (download cfg o (fresh conn)).world.log ∧
        (download cfg o (fresh conn)).world.log.take 5 =
          [Event.fetchPassphrase, Event.latestSnapshot, Event.urlParse snapshot_id,
            Event.minioNew, Event.getObject u.Host (TrimPrefix u.Path "/")] ∧
        (∀ e, o.getObject u.Host (TrimPrefix u.Path "/") = Except.error e →
          (download cfg o (fresh conn)).world.log =
            [Event.fetchPassphrase, Event.latestSnapshot, Event.urlParse snapshot_id,
              Event.minioNew, Event.getObject u.Host (TrimPrefix u.Path "/"),
              Event.handleError ("Error with GetObject: " ++ e)]))) := by
  have hne : ∀ (m a t : String), 11 ≤ a.length → stem a ≠ stem "Unable to parse url (" →
      ("Unable to parse url (" ++ snapshot_id
        ++ ") for latest snapshot id from backups index: " ++ m = a ++ t) = False := by
    intro m a t ha h
    exact eq_false (parse_message_ne snapshot_id m a t ha h)
  constructor
  · intro e hu
    simp [download, hv, hs, hu, handleError, World.record, fresh, httpError_status]
  · intro u hu
    cases hm : o.minioNew with
    | some c =>
      simp [download, hv, hs, hu, hm, handleError, World.record, fresh,
        hne _ "Unable to obtain handle on object storage: " c (by decide) (by decide)]
    | none =>
    cases hg : o.getObject u.Host (TrimPrefix u.Path "/") with
    | error c =>
      simp [download, hv, hs, hu, hm, hg, handleError, World.record, fresh,
        hne _ "Error with GetObject: " c (by decide) (by decide)]
    | ok object =>
    cases hi : o.stdinPipe with
    | error c =>
      simp [download, hv, hs, hu, hm, hg, hi, handleError, World.record, fresh,
        hne _ "GnuPG stdin: " c (by decide) (by decide)]
    | ok stdin =>
    cases hp : o.osPipe with
    | some c =>
      simp [download, hv, hs, hu, hm, hg, hi, hp, readerFile, handleError, World.record,
        fresh,
        hne _ "Unable to initialise GnuPG passphrase reader: " c (by decide) (by decide)]
    | none =>
    cases ho : o.stdoutPipe with
    | error c =>
      simp [download, hv, hs, hu, hm, hg, hi, hp, ho, readerFile, handleError, World.record,
        fresh, hne _ "GnuPG stdout: " c (by decide) (by decide)]
    | ok stdout =>
      rw [download_launch cfg o (fresh conn) passphrase snapshot_id u object stdout stdin
        hv hs hu hm hg hi hp ho]
      cases hst : o.start with
      | some e =>
        obtain ⟨m1, hl, -⟩ := run_not_started o
          { (fresh conn) with log := (fresh conn).log ++ launchLog snapshot_id u }
          (Command "gpg" ["--batch", "--passphrase-fd", "3"]) { content := bytes passphrase }
          stdin object stdout e hst rfl
        rw [hl]
        simp [fresh, launchLog,
          hne _ "Error running GnuPG process: " e (by decide) (by decide),
          hne _ "Transferring object from storage: " m1 (by decide) (by decide)]
      | none =>
        obtain ⟨m1, m2, hl, -⟩ := run_started o
          { (fresh conn) with log := (fresh conn).log ++ launchLog snapshot_id u }
          (Command "gpg" ["--batch", "--passphrase-fd", "3"]) { content := bytes passphrase }
          stdin object stdout hst
        rw [hl]
        cases hw : o.wait with
        | none =>
          simp [fresh, launchLog,
            hne _ "Transferring object from storage: " m1 (by decide) (by decide),
            hne _ "Transferring decrypted file to response: " m2 (by decide) (by decide)]
        | some e =>
          simp [fresh, launchLog,
            hne _ "Error running GnuPG process: " e (by decide) (by decide),
            hne _ "Transferring object from storage: " m1 (by decide) (by decide),
            hne _ "Transferring decrypted file to response: " m2 (by decide) (by decide)]

/-- Witness for C9: the reference `snap.enc` is passed to `GetObject` with the bucket that
`url.Parse` found, the empty string, and the refusal of MinIO is what is reported. -/
theorem locator_handling_witness :
    Event.getObject "" (TrimPrefix "snap.enc" "/") ∈
      (download cfg0 bareName (fresh client)).world.log ∧
    (download cfg0 bareName (fresh client)).world.log =
      [Event.fetchPassphrase, Event.latestSnapshot, Event.urlParse "snap.enc",
        Event.minioNew, Event.getObject "" (TrimPrefix "snap.enc" "/"),
        Event.handleError ("Error with GetObject: " ++ "Bucket name cannot be empty")] :=
  ⟨(((locator_handling cfg0 bareName client "hunter2" "snap.enc" rfl rfl).2
      { Scheme := "", Host := "", Path := "snap.enc" } rfl).2.2 rfl).1,
    (((locator_handling cfg0 bareName client "hunter2" "snap.enc" rfl rfl).2
      { Scheme := "", Host := "", Path := "snap.enc" } rfl).2.2 rfl).2.2
      "Bucket name cannot be empty" rfl⟩

/-- C10, counterexample. In the request where every collaborator answers, `download`
returns with the storage stream opened and never closed; and when the passphrase pipe
cannot be created, it returns with the stdin pipe created and never closed. -/
theorem storage_stream_left_open :
    (download cfg0 healthy (fresh client)).panic = none ∧
    Event.acquired Resource.object ∈ (download cfg0 healthy (fresh client)).world.log ∧
    Event.released Resource.object ∉ (download cfg0 healthy (fresh client)).world.log ∧
    Event.acquired Resource.stdinPipe ∈
      (download cfg0 noDescriptors (fresh client)).world.log ∧
    Event.released Resource.stdinPipe ∉
      (download cfg0 noDescriptors (fresh client)).world.log := by
  decide

/-- C10, amended. `download` releases what it releases explicitly or through `cmd.Run()`:
on every path on which it returns, the read end of the passphrase pipe, once created, is
closed by the deferred `phrasefd.Close()`; the write end, once created, is closed by the
goroutine of `readerFile`; the stdin and stdout pipes are closed on the paths that reach
`cmd.Run()`. The storage stream is closed on no path. -/
theorem releases (cfg : Config) (o : Oracle) (conn : Pipe) :
    Event.released Resource.object ∉ (download cfg o (fresh conn)).world.log ∧
    (Event.acquired Resource.phraseWriter ∈ (download cfg o (fresh conn)).world.log →
      Event.released Resource.phraseWriter ∈ (download cfg o (fresh conn)).world.log) ∧
    ((download cfg o (fresh conn)).panic = none →
      (Event.acquired Resource.phraseReader ∈ (download cfg o (fresh conn)).world.log →
        Event.released Resource.phraseReader ∈ (download cfg o (fresh conn)).world.log) ∧
      (Event.start ∈ (download cfg o (fresh conn)).world.log →
        Event.released Resource.stdinPipe ∈ (download cfg o (fresh conn)).world.log ∧
        Event.released Resource.stdoutPipe ∈ (download cfg o (fresh conn)).world.log)) := by
  rcases download_cases cfg o (fresh conn) with
    ⟨p, id, u, obj, so, si, -, -, -, hrun⟩ |
    ⟨k, id, u, msg, h1, h12, hlog, hpanic, -, -, -, -, -, hk8⟩ |
    ⟨q, hlog, hpanic, -⟩
  · rw [hrun]
    cases hst : o.start with
    | some e =>
      obtain ⟨m1, hl, hq, -⟩ := run_not_started o
        { (fresh conn) with log := (fresh conn).log ++ launchLog id u }
        (Command "gpg" ["--batch", "--passphrase-fd", "3"]) { content := bytes p } si obj so
        e hst rfl
      rw [hl, hq]
      simp [fresh, launchLog]
    | none =>
      obtain ⟨m1, m2, hl, hq, -⟩ := run_started o
        { (fresh conn) with log := (fresh conn).log ++ launchLog id u }
        (Command "gpg" ["--batch", "--passphrase-fd", "3"]) { content := bytes p } si obj so hst
      rw [hl, hq]
      cases hw : o.wait <;> simp [fresh, launchLog]
  · rw [hlog, hpanic]
    interval_cases k <;> simp at hk8 <;> simp [fresh, launchLog]
  · rw [hlog, hpanic]
    simp [fresh]

/-- Witness for C10: the request where every collaborator answers returns with the
passphrase descriptor and both process pipes closed, and so does the request whose `gpg`
cannot be started. -/
theorem releases_witness :
    (Event.released Resource.phraseReader ∈ (download cfg0 healthy (fresh client)).world.log ∧
      Event.released Resource.stdinPipe ∈ (download cfg0 healthy (fresh client)).world.log ∧
      Event.released Resource.stdoutPipe ∈ (download cfg0 healthy (fresh client)).world.log) ∧
    (Event.released Resource.phraseReader ∈ (download cfg0 noGpg (fresh client)).world.log ∧
      Event.released Resource.stdinPipe ∈ (download cfg0 noGpg (fresh client)).world.log ∧
      Event.released Resource.stdoutPipe ∈ (download cfg0 noGpg (fresh client)).world.log) :=
  ⟨⟨((releases cfg0 healthy client).2.2 (by decide)).1 (by decide),
      ((releases cfg0 healthy client).2.2 (by decide)).2 (by decide)⟩,
    ⟨((releases cfg0 noGpg client).2.2 (by decide)).1 (by decide),
      ((releases cfg0 noGpg client).2.2 (by decide)).2 (by decide)⟩⟩

end SnapshotDownload
